import Mathlib

/-!
Verification of the pocket-doc schema-extraction core against its
natural-language specification.

The Go sources are embedded shallowly:

* the canonical model structs of internal/model/schema.go become Lean
  structures with the same fields (Go zero values become explicit
  defaults);
* each dialect adapter's catalog queries are modelled as fields of a
  per-adapter database record: a query is a function from the query's
  bind parameters to `Except GoErr rows`, where the row shape mirrors
  exactly the columns selected by the SQL in the source.  The `Except`
  error covers both query failure and scan failure;
* the Go code that consumes the rows (loops, scans, enrichment, string
  building) is translated function by function, keeping the source's
  names and control flow, including its error handling (in particular
  the `if err == nil` guard around the foreign-key-target lookup);
* Go slices are Lean lists; for the one place where the spec talks about
  nil versus empty slices (`GetSynonyms`) a `GoSlice` wrapper keeps the
  nil-ness bit.
-/

/-! ## Go string helpers

`strings.Contains` and `strings.TrimSpace` are re-implemented by
structural recursion on the character list so that they evaluate inside
the kernel. -/

/-- Character-list version of Go `strings.HasPrefix` used by `hasSubL`. -/
def startsWithL : List Char → List Char → Bool
  | [], _ => true
  | _ :: _, [] => false
  | p :: ps, c :: cs => p == c && startsWithL ps cs

/-- Does `pat` occur as a contiguous run inside the list? -/
def hasSubL (pat : List Char) : List Char → Bool
  | [] => startsWithL pat []
  | c :: cs => startsWithL pat (c :: cs) || hasSubL pat cs

/-- Go `strings.Contains s pat`. -/
def goContains (s pat : String) : Bool := hasSubL pat.toList s.toList

/-- Go `strings.TrimSpace`. -/
def goTrimSpace (s : String) : String :=
  String.mk (((s.toList.dropWhile Char.isWhitespace).reverse.dropWhile
    Char.isWhitespace).reverse)

/-- Go `strings.Join parts ", "` as used by the signature builders: the
separator is interleaved between consecutive elements. -/
def goJoinComma : List String → String
  | [] => ""
  | [s] => s
  | s :: rest => s ++ ", " ++ goJoinComma rest

/-- Errors returned by the `database/sql` layer are modelled as their
message strings. -/
abbrev GoErr : Type := String

/-! ## Canonical model (src/internal/model/schema.go)

Every struct of schema.go, with the same field names and field order.
Go's zero values are the Lean defaults, so a freshly scanned object has
exactly the fields the Go code assigns. -/

/-- Column of internal/model/schema.go lines 48-70. -/
structure Column where
  Name : String := ""
  Position : Int := 0
  DataType : String := ""
  Length : Int := 0
  Precision : Int := 0
  Scale : Int := 0
  Nullable : Bool := false
  DefaultValue : String := ""
  Comment : String := ""
  IsPrimaryKey : Bool := false
  IsForeignKey : Bool := false
  IsUnique : Bool := false
  FKTargetTable : String := ""
  FKTargetColumn : String := ""
  IsAutoIncrement : Bool := false
  CharacterSet : String := ""
  Collation : String := ""
deriving Repr, DecidableEq

/-- Index of internal/model/schema.go lines 100-111. -/
structure Index where
  Name : String := ""
  TableName : String := ""
  Owner : String := ""
  «Type» : String := ""
  Columns : List String := []
  IsUnique : Bool := false
  IsPrimary : Bool := false
  IsEnabled : Bool := false
  Comment : String := ""
  CreatedAt : String := ""
deriving Repr, DecidableEq

/-- Table of internal/model/schema.go lines 23-33. -/
structure Table where
  Name : String := ""
  Owner : String := ""
  «Type» : String := ""
  Comment : String := ""
  Columns : List Column := []
  Indexes : List Index := []
  RowCount : Int := 0
  CreatedAt : String := ""
  ModifiedAt : String := ""
deriving Repr, DecidableEq

/-- View of internal/model/schema.go lines 36-45. -/
structure View where
  Name : String := ""
  Owner : String := ""
  «Type» : String := ""
  Comment : String := ""
  Columns : List Column := []
  IsUpdatable : Bool := false
  CreatedAt : String := ""
  ModifiedAt : String := ""
deriving Repr, DecidableEq

/-- RoutineArgument of internal/model/schema.go lines 90-97. -/
structure RoutineArgument where
  Name : String := ""
  Position : Int := 0
  Mode : String := ""
  DataType : String := ""
  DefaultValue : String := ""
  Comment : String := ""
deriving Repr, DecidableEq

/-- Routine of internal/model/schema.go lines 74-87; the struct has no
body/source field, which is what claim C1 is about. -/
structure Routine where
  Name : String := ""
  Owner : String := ""
  «Type» : String := ""
  Comment : String := ""
  Signature : String := ""
  Arguments : List RoutineArgument := []
  ReturnType : String := ""
  Language : String := ""
  IsDeterministic : Bool := false
  SecurityType : String := ""
  CreatedAt : String := ""
  ModifiedAt : String := ""
deriving Repr, DecidableEq

/-- Sequence of internal/model/schema.go lines 114-126. -/
structure Sequence where
  Name : String := ""
  Owner : String := ""
  MinValue : Int := 0
  MaxValue : Int := 0
  Increment : Int := 0
  LastNumber : Int := 0
  CacheSize : Int := 0
  IsCyclic : Bool := false
  IsOrdered : Bool := false
  Comment : String := ""
  CreatedAt : String := ""
deriving Repr, DecidableEq

/-- Trigger of internal/model/schema.go lines 130-142. -/
structure Trigger where
  Name : String := ""
  Owner : String := ""
  TargetTable : String := ""
  TargetType : String := ""
  Timing : String := ""
  Event : String := ""
  Level : String := ""
  Status : String := ""
  Comment : String := ""
  CreatedAt : String := ""
  ModifiedAt : String := ""
deriving Repr, DecidableEq

/-- Synonym of internal/model/schema.go lines 145-154. -/
structure Synonym where
  Name : String := ""
  Owner : String := ""
  TargetObject : String := ""
  TargetOwner : String := ""
  TargetType : String := ""
  IsPublic : Bool := false
  Comment : String := ""
  CreatedAt : String := ""
deriving Repr, DecidableEq

/-- Schema of internal/model/schema.go lines 7-20.  `ExtractedAt` (a
`time.Time` in Go) is modelled as an abstract clock value. -/
structure Schema where
  DatabaseName : String := ""
  DatabaseType : String := ""
  Version : String := ""
  ExtractedAt : Nat := 0
  Comment : String := ""
  Tables : List Table := []
  Views : List View := []
  Routines : List Routine := []
  Sequences : List Sequence := []
  Triggers : List Trigger := []
  Synonyms : List Synonym := []
  Indexes : List Index := []
deriving Repr, DecidableEq

/-! ## Field-name inventory for the structural security check

src/unnamed/part_000 `validateNoSourceCodeFields` walks the struct
declarations of schema.go and rejects any field named Body, Definition,
Script, Text or Source.  The field-name lists below transcribe the
declarations of schema.go verbatim, in declaration order. -/

/-- Field names of struct `Routine` in schema.go. -/
def routineFieldNames : List String :=
  ["Name", "Owner", "Type", "Comment", "Signature", "Arguments",
   "ReturnType", "Language", "IsDeterministic", "SecurityType",
   "CreatedAt", "ModifiedAt"]

/-- Field names of struct `Trigger` in schema.go. -/
def triggerFieldNames : List String :=
  ["Name", "Owner", "TargetTable", "TargetType", "Timing", "Event",
   "Level", "Status", "Comment", "CreatedAt", "ModifiedAt"]

/-- Field names of struct `View` in schema.go. -/
def viewFieldNames : List String :=
  ["Name", "Owner", "Type", "Comment", "Columns", "IsUpdatable",
   "CreatedAt", "ModifiedAt"]

/-- The forbidden field names of `validateNoSourceCodeFields`
(src/unnamed/part_000 line 65). -/
def forbiddenFieldNames : List String :=
  ["Body", "Definition", "Script", "Text", "Source"]

/-- Go slice with its nil-ness bit: `GoSlice.isNil` distinguishes a nil
slice from the non-nil empty slice literal `[]T{}`. -/
structure GoSlice (α : Type) where
  isNil : Bool
  elems : List α
deriving Repr, DecidableEq

/-! ## Shared traversal and sorting helpers -/

/-- Row-by-row traversal that stops at the first failing nested query,
mirroring the Go `for rows.Next() { ... if err != nil { return nil, err } }`
loops. -/
def exMapM (f : α → Except GoErr β) : List α → Except GoErr (List β)
  | [] => .ok []
  | a :: as =>
    match f a with
    | .error e => .error e
    | .ok b =>
      match exMapM f as with
      | .error e => .error e
      | .ok bs => .ok (b :: bs)

/-- Insert a (key-ordinal, column-name) pair into a list sorted by
ordinal. -/
def insPair (p : Nat × String) : List (Nat × String) → List (Nat × String)
  | [] => [p]
  | q :: qs => if p.1 ≤ q.1 then p :: q :: qs else q :: insPair p qs

/-- Sort (key-ordinal, column-name) pairs by ascending ordinal.  This
models the `ORDER BY` on the key-sequence field in the index-column
catalog queries, which the database engine executes. -/
def sortPairs : List (Nat × String) → List (Nat × String)
  | [] => []
  | p :: ps => insPair p (sortPairs ps)

/-! ## PostgreSQL adapter (src/internal/extractor/postgres/extractor.go)

Each catalog query of the adapter becomes a field of `PgDb`.  A query
whose SQL binds parameters (`$1`, `$2`, ...) is a function of those
parameters.  The row types carry exactly the columns the SQL selects,
after the database-side expressions (`COALESCE`, `CASE`, `EXISTS`)
have been evaluated.  The dynamically appended schema-filter clause
`AND n.nspname IN (...)` is modelled explicitly by `pgVisible` so that
the filter semantics stay visible in the embedding. -/

/-- Row of the `GetTables` query (schema_name, table_name, table_comment,
row_count, kind). -/
structure PgTableRow where
  schemaName : String
  tableName : String
  comment : String
  rowCount : Int
  kind : String
deriving Repr, DecidableEq

/-- Row of the `getColumnsForTable` query. -/
structure PgColumnRow where
  position : Int
  name : String
  dataType : String
  nullable : Bool
  defaultValue : String
  comment : String
  isPrimary : Bool
  isForeign : Bool
  isUnique : Bool
deriving Repr, DecidableEq

/-- Row of the `getIndexesForTable` query. -/
structure PgIndexRow where
  name : String
  idxType : String
  isUnique : Bool
  isPrimary : Bool
  comment : String
deriving Repr, DecidableEq

/-- Row of the `GetViews` query. -/
structure PgViewRow where
  schemaName : String
  viewName : String
  comment : String
  isUpdatable : Bool
deriving Repr, DecidableEq

/-- Row of the `GetRoutines` query: the argument list and the return
type arrive preformatted from `pg_get_function_identity_arguments` and
`format_type`. -/
structure PgRoutineRow where
  schemaName : String
  name : String
  rtype : String
  comment : String
  argStr : String
  returnType : String
  language : String
deriving Repr, DecidableEq

/-- Row of the `GetSequences` query. -/
structure PgSequenceRow where
  schemaName : String
  name : String
  minValue : Int
  maxValue : Int
  increment : Int
  lastNumber : Int
  isCyclic : Bool
  comment : String
deriving Repr, DecidableEq

/-- Row of the `GetTriggers` query; level, timing, event and status are
the strings produced by the query's `CASE` expressions. -/
structure PgTriggerRow where
  schemaName : String
  name : String
  tableName : String
  level : String
  timing : String
  event : String
  status : String
  comment : String
deriving Repr, DecidableEq

/-- The PostgreSQL catalog as seen through the adapter's queries.  The
index-column query returns (ordinal, name) pairs before its `ORDER BY`
is applied; `pgGetIndexColumns` applies the ordering. -/
structure PgDb where
  databaseInfo : Except GoErr (String × String)
  tablesCatalog : Except GoErr (List PgTableRow)
  columnsCatalog : String → String → Except GoErr (List PgColumnRow)
  fkTargetCatalog : String → String → String →
    Except GoErr (Option String × Option String)
  indexesCatalog : String → String → Except GoErr (List PgIndexRow)
  indexColsCatalog : String → String → Except GoErr (List (Nat × String))
  viewsCatalog : Except GoErr (List PgViewRow)
  routinesCatalog : Except GoErr (List PgRoutineRow)
  sequencesCatalog : Except GoErr (List PgSequenceRow)
  triggersCatalog : Except GoErr (List PgTriggerRow)

/-- Semantics of the dynamically appended `AND owner IN (filter)`
clause: with an empty filter no clause is appended and every row
passes. -/
def pgVisible (schemaFilter : List String) (owner : String) : Bool :=
  schemaFilter.isEmpty || schemaFilter.contains owner

/-- NewExtractor lines 43-46: an empty configured filter defaults to
the single schema "public". -/
def pgNewExtractorSchemas (cfgFilter : List String) : List String :=
  if cfgFilter.isEmpty then ["public"] else cfgFilter

/-- GetDatabaseInfo (extractor.go lines 69-72). -/
def pgGetDatabaseInfo (db : PgDb) : Except GoErr (String × String) :=
  db.databaseInfo

/-- getForeignKeyTarget (extractor.go lines 218-251): one row is
scanned; the map is returned only when both NullStrings are valid. -/
def pgGetForeignKeyTarget (db : PgDb) (schema table column : String) :
    Except GoErr (Option (String × String)) :=
  match db.fkTargetCatalog schema table column with
  | .error e => .error e
  | .ok (some t, some c) => .ok (some (t, c))
  | .ok _ => .ok none

/-- Per-row body of the `getColumnsForTable` loop (extractor.go lines
187-212), including the `if err == nil && fkInfo != nil` guard that
drops a failed or empty foreign-key-target lookup. -/
def pgScanColumn (db : PgDb) (schema tableName : String)
    (r : PgColumnRow) : Column :=
  let col : Column :=
    { Name := r.name, Position := r.position, DataType := r.dataType,
      Nullable := r.nullable, DefaultValue := r.defaultValue,
      Comment := r.comment, IsPrimaryKey := r.isPrimary,
      IsForeignKey := r.isForeign, IsUnique := r.isUnique,
      IsAutoIncrement := goContains r.defaultValue "nextval" }
  if r.isForeign then
    match pgGetForeignKeyTarget db schema tableName r.name with
    | .ok (some (t, c)) => { col with FKTargetTable := t, FKTargetColumn := c }
    | _ => col
  else col

/-- getColumnsForTable (extractor.go lines 141-215). -/
def pgGetColumnsForTable (db : PgDb) (schema tableName : String) :
    Except GoErr (List Column) :=
  match db.columnsCatalog schema tableName with
  | .error e => .error e
  | .ok rows => .ok (rows.map (pgScanColumn db schema tableName))

/-- getIndexColumns (extractor.go lines 306-333): the SQL orders rows
by `array_position(ix.indkey, a.attnum)` and the loop copies them in
order. -/
def pgGetIndexColumns (db : PgDb) (schema indexName : String) :
    Except GoErr (List String) :=
  match db.indexColsCatalog schema indexName with
  | .error e => .error e
  | .ok pairs => .ok ((sortPairs pairs).map Prod.snd)

/-- Per-row body of the `getIndexesForTable` loop (extractor.go lines
279-300). -/
def pgScanIndex (db : PgDb) (schema tableName : String)
    (r : PgIndexRow) : Except GoErr Index :=
  match pgGetIndexColumns db schema r.name with
  | .error e => .error e
  | .ok cols =>
    .ok { Name := r.name, «Type» := r.idxType, IsUnique := r.isUnique,
          IsPrimary := r.isPrimary, Comment := r.comment,
          TableName := tableName, Owner := schema, IsEnabled := true,
          Columns := cols }

/-- getIndexesForTable (extractor.go lines 254-303). -/
def pgGetIndexesForTable (db : PgDb) (schema tableName : String) :
    Except GoErr (List Index) :=
  match db.indexesCatalog schema tableName with
  | .error e => .error e
  | .ok rows => exMapM (pgScanIndex db schema tableName) rows

/-- Per-row body of the `GetTables` loop (extractor.go lines 111-135). -/
def pgScanTable (db : PgDb) (r : PgTableRow) : Except GoErr Table :=
  match pgGetColumnsForTable db r.schemaName r.tableName with
  | .error e => .error e
  | .ok cols =>
    match pgGetIndexesForTable db r.schemaName r.tableName with
    | .error e => .error e
    | .ok idxs =>
      .ok { Owner := r.schemaName, Name := r.tableName,
            Comment := r.comment, RowCount := r.rowCount,
            «Type» := "TABLE", Columns := cols, Indexes := idxs }

/-- GetTables (extractor.go lines 75-138); a failed tables query is
wrapped with "failed to query tables". -/
def pgGetTables (db : PgDb) (schemaFilter : List String) :
    Except GoErr (List Table) :=
  match db.tablesCatalog with
  | .error e => .error ("failed to query tables: " ++ e)
  | .ok rows =>
    exMapM (pgScanTable db)
      (rows.filter fun r => pgVisible schemaFilter r.schemaName)

/-- Per-row body of the `GetViews` loop (extractor.go lines 369-386). -/
def pgScanView (db : PgDb) (r : PgViewRow) : Except GoErr View :=
  match pgGetColumnsForTable db r.schemaName r.viewName with
  | .error e => .error e
  | .ok cols =>
    .ok { Owner := r.schemaName, Name := r.viewName, Comment := r.comment,
          IsUpdatable := r.isUpdatable, «Type» := "VIEW", Columns := cols }

/-- GetViews (extractor.go lines 336-389). -/
def pgGetViews (db : PgDb) (schemaFilter : List String) :
    Except GoErr (List View) :=
  match db.viewsCatalog with
  | .error e => .error e
  | .ok rows =>
    exMapM (pgScanView db)
      (rows.filter fun r => pgVisible schemaFilter r.schemaName)

/-- Per-row body of the `GetRoutines` loop (extractor.go lines 430-450):
the signature is the routine type and name around the preformatted
argument string, plus " RETURNS <returnType>" for functions. -/
def pgScanRoutine (r : PgRoutineRow) : Routine :=
  let base : Routine :=
    { Owner := r.schemaName, Name := r.name, «Type» := r.rtype,
      Comment := r.comment, Language := r.language,
      ReturnType := if r.rtype == "FUNCTION" then r.returnType else "" }
  let sig := r.rtype ++ " " ++ r.name ++ "(" ++ r.argStr ++ ")"
  { base with
    Signature :=
      if r.rtype == "FUNCTION" then sig ++ " RETURNS " ++ r.returnType
      else sig }

/-- GetRoutines (extractor.go lines 392-453). -/
def pgGetRoutines (db : PgDb) (schemaFilter : List String) :
    Except GoErr (List Routine) :=
  match db.routinesCatalog with
  | .error e => .error e
  | .ok rows =>
    .ok ((rows.filter fun r => pgVisible schemaFilter r.schemaName).map
      pgScanRoutine)

/-- Per-row body of the `GetSequences` loop (extractor.go lines
493-505); the query selects no cache size or order flag. -/
def pgScanSequence (r : PgSequenceRow) : Sequence :=
  { Owner := r.schemaName, Name := r.name, MinValue := r.minValue,
    MaxValue := r.maxValue, Increment := r.increment,
    LastNumber := r.lastNumber, IsCyclic := r.isCyclic,
    Comment := r.comment }

/-- GetSequences (extractor.go lines 456-508). -/
def pgGetSequences (db : PgDb) (schemaFilter : List String) :
    Except GoErr (List Sequence) :=
  match db.sequencesCatalog with
  | .error e => .error e
  | .ok rows =>
    .ok ((rows.filter fun r => pgVisible schemaFilter r.schemaName).map
      pgScanSequence)

/-- Per-row body of the `GetTriggers` loop (extractor.go lines 557-571);
the target type is always "TABLE". -/
def pgScanTrigger (r : PgTriggerRow) : Trigger :=
  { Owner := r.schemaName, Name := r.name, TargetTable := r.tableName,
    Level := r.level, Timing := r.timing, Event := r.event,
    Status := r.status, Comment := r.comment, TargetType := "TABLE" }

/-- GetTriggers (extractor.go lines 511-574). -/
def pgGetTriggers (db : PgDb) (schemaFilter : List String) :
    Except GoErr (List Trigger) :=
  match db.triggersCatalog with
  | .error e => .error e
  | .ok rows =>
    .ok ((rows.filter fun r => pgVisible schemaFilter r.schemaName).map
      pgScanTrigger)

/-- GetSynonyms (extractor.go lines 577-579): PostgreSQL has no
synonyms; the adapter returns the non-nil empty slice literal
`[]model.Synonym{}` and a nil error, for every database state. -/
def pgGetSynonyms (_db : PgDb) : GoSlice Synonym × Option GoErr :=
  ({ isNil := false, elems := [] }, none)

/-! ## PostgreSQL orchestrator (ExtractSchema, extractor.go lines 581-629)

The embedding also records the list of steps that actually ran, so the
invocation order and the fail-fast behaviour can be stated.  The final
index aggregation loop appears as the step "AggregateIndexes". -/

/-- The step order hard-coded in `ExtractSchema`. -/
def pgStepOrder : List String :=
  ["GetDatabaseInfo", "GetTables", "GetViews", "GetRoutines",
   "GetSequences", "GetTriggers", "GetSynonyms", "AggregateIndexes"]

/-- ExtractSchema with its step trace.  Each failing step returns
`(nil, err)` immediately; on success every collection is installed and
the per-table indexes are concatenated into the root collection. -/
def pgExtractSchemaT (db : PgDb) (schemaFilter : List String) (now : Nat) :
    (Option Schema × Option GoErr) × List String :=
  match pgGetDatabaseInfo db with
  | .error e => ((none, some e), ["GetDatabaseInfo"])
  | .ok (dbName, ver) =>
    match pgGetTables db schemaFilter with
    | .error e => ((none, some e), ["GetDatabaseInfo", "GetTables"])
    | .ok tables =>
      match pgGetViews db schemaFilter with
      | .error e =>
        ((none, some e), ["GetDatabaseInfo", "GetTables", "GetViews"])
      | .ok views =>
        match pgGetRoutines db schemaFilter with
        | .error e =>
          ((none, some e),
           ["GetDatabaseInfo", "GetTables", "GetViews", "GetRoutines"])
        | .ok routines =>
          match pgGetSequences db schemaFilter with
          | .error e =>
            ((none, some e),
             ["GetDatabaseInfo", "GetTables", "GetViews", "GetRoutines",
              "GetSequences"])
          | .ok seqs =>
            match pgGetTriggers db schemaFilter with
            | .error e =>
              ((none, some e),
               ["GetDatabaseInfo", "GetTables", "GetViews", "GetRoutines",
                "GetSequences", "GetTriggers"])
            | .ok trgs =>
              match pgGetSynonyms db with
              | (_, some e) =>
                ((none, some e),
                 ["GetDatabaseInfo", "GetTables", "GetViews", "GetRoutines",
                  "GetSequences", "GetTriggers", "GetSynonyms"])
              | (syns, none) =>
                ((some { DatabaseName := dbName, Version := ver,
                         DatabaseType := "PostgreSQL", ExtractedAt := now,
                         Tables := tables, Views := views,
                         Routines := routines, Sequences := seqs,
                         Triggers := trgs, Synonyms := syns.elems,
                         Indexes := (tables.map Table.Indexes).flatten },
                  none),
                 pgStepOrder)

/-- ExtractSchema as the caller sees it: the `(*model.Schema, error)`
pair. -/
def pgExtractSchema (db : PgDb) (schemaFilter : List String) (now : Nat) :
    Option Schema × Option GoErr :=
  (pgExtractSchemaT db schemaFilter now).1

/-! ## Go `strings.Fields` (used by the Oracle trigger-type parser) -/

/-- Worker for `goFields`: walks the characters, accumulating the
current word reversed. -/
def fieldsGo : List Char → List Char → List String
  | [], acc => if acc.isEmpty then [] else [String.mk acc.reverse]
  | c :: cs, acc =>
    if c.isWhitespace then
      if acc.isEmpty then fieldsGo cs []
      else String.mk acc.reverse :: fieldsGo cs []
    else fieldsGo cs (c :: acc)

/-- Go `strings.Fields`. -/
def goFields (s : String) : List String := fieldsGo s.toList []

/-! ## Oracle adapter (src/unnamed/part_004 lines 108-881)

Modelled exactly like the PostgreSQL adapter.  `sql.NullString` and
`sql.NullInt64` columns appear as `Option`. -/

/-- Row of the Oracle `GetTables` query; the third selected column is
`TABLESPACE_NAME`, which the Go code scans into `Table.Type`. -/
structure OraTableRow where
  owner : String
  tableName : String
  tablespace : String
  numRows : Option Int
  comment : String
  createdAt : Option String
  modifiedAt : Option String
deriving Repr, DecidableEq

/-- Row of the Oracle `getColumnsForTable` query.  The Go loop scans
`DATA_LENGTH` and then `CHAR_COL_DECL_LENGTH` into the same
`col.Length` field, so only the char length survives. -/
structure OraColumnRow where
  name : String
  position : Int
  dataType : Option String
  dataLength : Int
  precision : Int
  scale : Int
  nullable : String
  defaultValue : Option String
  comment : String
  charLength : Int
deriving Repr, DecidableEq

/-- Row of `enrichColumnsWithConstraints`. -/
structure OraConsRow where
  colName : String
  ctype : String
  rOwner : Option String
  rTable : Option String
  rColumn : Option String
deriving Repr, DecidableEq

/-- Row of the Oracle `getIndexesForTable` query. -/
structure OraIndexRow where
  name : String
  idxType : String
  uniqueness : String
  comment : String
deriving Repr, DecidableEq

/-- Row of the Oracle `GetViews` query (`VIEW_TYPE` is the literal
'VIEW' selected by the SQL). -/
structure OraViewRow where
  owner : String
  viewName : String
  vtype : String
  comment : String
  updatable : String
deriving Repr, DecidableEq

/-- Row of the Oracle `GetRoutines` query. -/
structure OraRoutineRow where
  owner : String
  objectName : String
  procName : Option String
  objType : String
  comment : String
deriving Repr, DecidableEq

/-- Row of `getRoutineArguments`. -/
structure OraArgRow where
  name : String
  position : Int
  mode : String
  dataType : String
  defaultValue : Option String
deriving Repr, DecidableEq

/-- Row of the Oracle `GetSequences` query. -/
structure OraSequenceRow where
  owner : String
  name : String
  minValue : Int
  maxValue : Int
  increment : Int
  lastNumber : Int
  cacheSize : Int
  cycleFlag : String
  orderFlag : String
deriving Repr, DecidableEq

/-- Row of the Oracle `GetTriggers` query. -/
structure OraTriggerRow where
  owner : String
  name : String
  tableOwner : String
  tableName : String
  triggerType : String
  event : String
  status : String
deriving Repr, DecidableEq

/-- Row of the Oracle `GetSynonyms` query. -/
structure OraSynonymRow where
  owner : String
  name : String
  tableOwner : String
  tableName : String
  dbLink : Option String
deriving Repr, DecidableEq

/-- The Oracle catalog as seen through the adapter's queries. -/
structure OraDb where
  databaseInfo : Except GoErr (String × String)
  tablesCatalog : Except GoErr (List OraTableRow)
  columnsCatalog : String → String → Except GoErr (List OraColumnRow)
  consCatalog : String → String → Except GoErr (List OraConsRow)
  indexesCatalog : String → String → Except GoErr (List OraIndexRow)
  indexColsCatalog : String → String → Except GoErr (List (Nat × String))
  viewsCatalog : Except GoErr (List OraViewRow)
  routinesCatalog : Except GoErr (List OraRoutineRow)
  argsCatalog : String → String → Except GoErr (List OraArgRow)
  sequencesCatalog : Except GoErr (List OraSequenceRow)
  triggersCatalog : Except GoErr (List OraTriggerRow)
  synonymsCatalog : Except GoErr (List OraSynonymRow)

/-- Semantics of the Oracle adapter's appended `AND OWNER IN (...)`
clause: nothing is appended for an empty filter, so every owner
passes. -/
def oraVisible (schemaFilter : List String) (owner : String) : Bool :=
  schemaFilter.isEmpty || schemaFilter.contains owner

/-- Oracle NewExtractor (part_004 lines 139-155): the configured filter
is stored unchanged; unlike the PostgreSQL and SQL Server constructors
there is no defaulting for an empty list. -/
def oraNewExtractorSchemas (cfgFilter : List String) : List String :=
  cfgFilter

/-- Oracle GetDatabaseInfo (part_004 lines 171-180). -/
def oraGetDatabaseInfo (db : OraDb) : Except GoErr (String × String) :=
  db.databaseInfo

/-- Per-column constraint record aggregated by
`enrichColumnsWithConstraints`'s `constraintMap`. -/
structure OraConsRec where
  pk : Bool := false
  fk : Bool := false
  uk : Bool := false
  fkTable : Option String := none
  fkColumn : Option String := none
deriving Repr, DecidableEq

/-- Update-or-insert on the association list that models the Go map
`constraintMap` (key: column name). -/
def consUpd (k : String) (f : OraConsRec → OraConsRec) :
    List (String × OraConsRec) → List (String × OraConsRec)
  | [] => [(k, f {})]
  | (k', r) :: rest =>
    if k = k' then (k', f r) :: rest else (k', r) :: consUpd k f rest

/-- Effect of one constraint row on a column's record (part_004 lines
361-372): "P" marks the primary key, "R" marks a foreign key and
overwrites the target when both referenced names are non-NULL, "U"
marks uniqueness. -/
def oraApplyConsRow (row : OraConsRow) (rec : OraConsRec) : OraConsRec :=
  match row.ctype with
  | "P" => { rec with pk := true }
  | "R" =>
    match row.rTable, row.rColumn with
    | some t, some c =>
      { rec with fk := true, fkTable := some t, fkColumn := some c }
    | _, _ => { rec with fk := true }
  | "U" => { rec with uk := true }
  | _ => rec

/-- The `constraintMap` built by the row loop of
`enrichColumnsWithConstraints` (part_004 lines 347-373). -/
def oraConstraintMap (rows : List OraConsRow) : List (String × OraConsRec) :=
  rows.foldl (fun m row => consUpd row.colName (oraApplyConsRow row) m) []

/-- Indexing into the modelled `constraintMap` (first binding wins,
matching `consUpd`, which never duplicates a key). -/
def consFind (k : String) : List (String × OraConsRec) → Option OraConsRec
  | [] => none
  | (k', r) :: rest => if k = k' then some r else consFind k rest

/-- Application of the constraint map to one column (part_004 lines
376-394).  The Go code updates the five fields one after another under
their respective guards; since the updates touch disjoint fields, they
are written here as one record update with the same guards. -/
def oraEnrichColumn (m : List (String × OraConsRec)) (col : Column) : Column :=
  match consFind col.Name m with
  | none => col
  | some rec =>
    { col with
      IsPrimaryKey := if rec.pk then true else col.IsPrimaryKey,
      IsForeignKey := if rec.fk then true else col.IsForeignKey,
      FKTargetTable :=
        if rec.fk then
          match rec.fkTable with
          | some t => t
          | none => col.FKTargetTable
        else col.FKTargetTable,
      FKTargetColumn :=
        if rec.fk then
          match rec.fkColumn with
          | some c => c
          | none => col.FKTargetColumn
        else col.FKTargetColumn,
      IsUnique := if rec.uk then true else col.IsUnique }

/-- enrichColumnsWithConstraints (part_004 lines 325-397) applied to an
already-scanned column list. -/
def oraEnrichColumns (db : OraDb) (owner tableName : String)
    (columns : List Column) : Except GoErr (List Column) :=
  match db.consCatalog owner tableName with
  | .error e => .error e
  | .ok rows => .ok (columns.map (oraEnrichColumn (oraConstraintMap rows)))

/-- Per-row scan of the Oracle column loop (part_004 lines 291-314). -/
def oraScanColumn (r : OraColumnRow) : Column :=
  { Name := r.name, Position := r.position,
    DataType := match r.dataType with | some d => d | none => "",
    Length := r.charLength, Precision := r.precision, Scale := r.scale,
    Nullable := r.nullable == "Y",
    DefaultValue :=
      match r.defaultValue with | some d => goTrimSpace d | none => "",
    Comment := r.comment }

/-- Oracle getColumnsForTable (part_004 lines 264-322): scan all rows,
then enrich with constraints; a failing constraint query aborts. -/
def oraGetColumnsForTable (db : OraDb) (owner tableName : String) :
    Except GoErr (List Column) :=
  match db.columnsCatalog owner tableName with
  | .error e => .error e
  | .ok rows => oraEnrichColumns db owner tableName (rows.map oraScanColumn)

/-- Oracle getIndexColumns (part_004 lines 447-471): rows ordered by
`COLUMN_POSITION`, copied in order. -/
def oraGetIndexColumns (db : OraDb) (owner indexName : String) :
    Except GoErr (List String) :=
  match db.indexColsCatalog owner indexName with
  | .error e => .error e
  | .ok pairs => .ok ((sortPairs pairs).map Prod.snd)

/-- Per-row body of the Oracle `getIndexesForTable` loop (part_004
lines 420-441). -/
def oraScanIndex (db : OraDb) (owner tableName : String)
    (r : OraIndexRow) : Except GoErr Index :=
  match oraGetIndexColumns db owner r.name with
  | .error e => .error e
  | .ok cols =>
    .ok { Name := r.name, «Type» := r.idxType,
          IsUnique := r.uniqueness == "UNIQUE", Comment := r.comment,
          TableName := tableName, Owner := owner, IsEnabled := true,
          Columns := cols }

/-- Oracle getIndexesForTable (part_004 lines 400-444). -/
def oraGetIndexesForTable (db : OraDb) (owner tableName : String) :
    Except GoErr (List Index) :=
  match db.indexesCatalog owner tableName with
  | .error e => .error e
  | .ok rows => exMapM (oraScanIndex db owner tableName) rows

/-- Per-row body of the Oracle `GetTables` loop (part_004 lines
222-258), wrapping nested failures with the table's identity. -/
def oraScanTable (db : OraDb) (r : OraTableRow) : Except GoErr Table :=
  match oraGetColumnsForTable db r.owner r.tableName with
  | .error e =>
    .error ("failed to get columns for " ++ r.owner ++ "." ++ r.tableName
      ++ ": " ++ e)
  | .ok cols =>
    match oraGetIndexesForTable db r.owner r.tableName with
    | .error e =>
      .error ("failed to get indexes for " ++ r.owner ++ "." ++ r.tableName
        ++ ": " ++ e)
    | .ok idxs =>
      .ok { Owner := r.owner, Name := r.tableName, «Type» := r.tablespace,
            RowCount := match r.numRows with | some n => n | none => 0,
            Comment := r.comment,
            CreatedAt := match r.createdAt with | some s => s | none => "",
            ModifiedAt := match r.modifiedAt with | some s => s | none => "",
            Columns := cols, Indexes := idxs }

/-- Oracle GetTables (part_004 lines 183-261). -/
def oraGetTables (db : OraDb) (schemaFilter : List String) :
    Except GoErr (List Table) :=
  match db.tablesCatalog with
  | .error e => .error ("failed to query tables: " ++ e)
  | .ok rows =>
    exMapM (oraScanTable db)
      (rows.filter fun r => oraVisible schemaFilter r.owner)

/-- Per-row body of the Oracle `GetViews` loop (part_004 lines
508-526). -/
def oraScanView (db : OraDb) (r : OraViewRow) : Except GoErr View :=
  match oraGetColumnsForTable db r.owner r.viewName with
  | .error e => .error e
  | .ok cols =>
    .ok { Owner := r.owner, Name := r.viewName, «Type» := r.vtype,
          Comment := r.comment, IsUpdatable := r.updatable == "Y",
          Columns := cols }

/-- Oracle GetViews (part_004 lines 474-529). -/
def oraGetViews (db : OraDb) (schemaFilter : List String) :
    Except GoErr (List View) :=
  match db.viewsCatalog with
  | .error e => .error e
  | .ok rows =>
    exMapM (oraScanView db)
      (rows.filter fun r => oraVisible schemaFilter r.owner)

/-- Oracle getRoutineArguments (part_004 lines 598-636). -/
def oraGetRoutineArguments (db : OraDb) (owner objectName : String) :
    Except GoErr (List RoutineArgument) :=
  match db.argsCatalog owner objectName with
  | .error e => .error e
  | .ok rows =>
    .ok (rows.map fun r =>
      { Name := r.name, Position := r.position, Mode := r.mode,
        DataType := r.dataType,
        DefaultValue :=
          match r.defaultValue with | some d => d | none => "" })

/-- buildSignature (part_004 lines 639-649): each argument renders as
"<name> <mode> <datatype>"; functions get the suffix
" RETURN <type>" with the literal placeholder token "<type>". -/
def buildSignature (name : String) (args : List RoutineArgument)
    (routineType : String) : String :=
  let argStrs := args.map fun arg =>
    arg.Name ++ " " ++ arg.Mode ++ " " ++ arg.DataType
  if routineType == "FUNCTION" then
    "FUNCTION " ++ name ++ "(" ++ goJoinComma argStrs ++ ") RETURN <type>"
  else
    "PROCEDURE " ++ name ++ "(" ++ goJoinComma argStrs ++ ")"

/-- Per-row body of the Oracle `GetRoutines` loop (part_004 lines
566-592): package members get "OBJECT.PROCEDURE" names, and the
argument query is keyed on that merged name. -/
def oraScanRoutine (db : OraDb) (r : OraRoutineRow) : Except GoErr Routine :=
  let name :=
    match r.procName with
    | some p => if p ≠ "" then r.objectName ++ "." ++ p else r.objectName
    | none => r.objectName
  match oraGetRoutineArguments db r.owner name with
  | .error e => .error e
  | .ok args =>
    .ok { Owner := r.owner, Name := name, «Type» := r.objType,
          Comment := r.comment, Language := "PL/SQL", Arguments := args,
          Signature := buildSignature name args r.objType }

/-- Oracle GetRoutines (part_004 lines 532-595). -/
def oraGetRoutines (db : OraDb) (schemaFilter : List String) :
    Except GoErr (List Routine) :=
  match db.routinesCatalog with
  | .error e => .error e
  | .ok rows =>
    exMapM (oraScanRoutine db)
      (rows.filter fun r => oraVisible schemaFilter r.owner)

/-- Oracle GetSequences (part_004 lines 652-709). -/
def oraGetSequences (db : OraDb) (schemaFilter : List String) :
    Except GoErr (List Sequence) :=
  match db.sequencesCatalog with
  | .error e => .error e
  | .ok rows =>
    .ok ((rows.filter fun r => oraVisible schemaFilter r.owner).map fun r =>
      { Owner := r.owner, Name := r.name, MinValue := r.minValue,
        MaxValue := r.maxValue, Increment := r.increment,
        LastNumber := r.lastNumber, CacheSize := r.cacheSize,
        IsCyclic := r.cycleFlag == "Y", IsOrdered := r.orderFlag == "Y",
        Comment := "" })

/-- Per-row body of the Oracle `GetTriggers` loop (part_004 lines
746-773): the first whitespace-separated word of `TRIGGER_TYPE` becomes
the timing, and the level is "ROW" exactly when the type contains
"EACH ROW". -/
def oraScanTrigger (r : OraTriggerRow) : Trigger :=
  let parts := goFields r.triggerType
  let timing := match parts with | [] => "" | p :: _ => p
  { Owner := r.owner, Name := r.name, TargetTable := r.tableName,
    Event := r.event, Status := r.status, Timing := timing,
    Level := if goContains r.triggerType "EACH ROW" then "ROW"
             else "STATEMENT",
    TargetType := "TABLE", Comment := "" }

/-- Oracle GetTriggers (part_004 lines 712-776). -/
def oraGetTriggers (db : OraDb) (schemaFilter : List String) :
    Except GoErr (List Trigger) :=
  match db.triggersCatalog with
  | .error e => .error e
  | .ok rows =>
    .ok ((rows.filter fun r => oraVisible schemaFilter r.owner).map
      oraScanTrigger)

/-- Oracle GetSynonyms (part_004 lines 779-828). -/
def oraGetSynonyms (db : OraDb) (schemaFilter : List String) :
    Except GoErr (List Synonym) :=
  match db.synonymsCatalog with
  | .error e => .error e
  | .ok rows =>
    .ok ((rows.filter fun r => oraVisible schemaFilter r.owner).map fun r =>
      { Owner := r.owner, Name := r.name, TargetOwner := r.tableOwner,
        TargetObject := r.tableName, IsPublic := r.owner == "PUBLIC",
        TargetType := "TABLE", Comment := "" })

/-! ## Oracle orchestrator (ExtractSchema, part_004 lines 831-881)

Same strict sequence as the PostgreSQL orchestrator, but every failing
step's error is wrapped with that step's purpose before being
returned. -/

/-- The step order hard-coded in the Oracle `ExtractSchema`. -/
def oraStepOrder : List String :=
  ["GetDatabaseInfo", "GetTables", "GetViews", "GetRoutines",
   "GetSequences", "GetTriggers", "GetSynonyms", "AggregateIndexes"]

/-- Oracle ExtractSchema with its step trace. -/
def oraExtractSchemaT (db : OraDb) (schemaFilter : List String) (now : Nat) :
    (Option Schema × Option GoErr) × List String :=
  match oraGetDatabaseInfo db with
  | .error e =>
    ((none, some ("failed to get database info: " ++ e)),
     ["GetDatabaseInfo"])
  | .ok (dbName, ver) =>
    match oraGetTables db schemaFilter with
    | .error e =>
      ((none, some ("failed to get tables: " ++ e)),
       ["GetDatabaseInfo", "GetTables"])
    | .ok tables =>
      match oraGetViews db schemaFilter with
      | .error e =>
        ((none, some ("failed to get views: " ++ e)),
         ["GetDatabaseInfo", "GetTables", "GetViews"])
      | .ok views =>
        match oraGetRoutines db schemaFilter with
        | .error e =>
          ((none, some ("failed to get routines: " ++ e)),
           ["GetDatabaseInfo", "GetTables", "GetViews", "GetRoutines"])
        | .ok routines =>
          match oraGetSequences db schemaFilter with
          | .error e =>
            ((none, some ("failed to get sequences: " ++ e)),
             ["GetDatabaseInfo", "GetTables", "GetViews", "GetRoutines",
              "GetSequences"])
          | .ok seqs =>
            match oraGetTriggers db schemaFilter with
            | .error e =>
              ((none, some ("failed to get triggers: " ++ e)),
               ["GetDatabaseInfo", "GetTables", "GetViews", "GetRoutines",
                "GetSequences", "GetTriggers"])
            | .ok trgs =>
              match oraGetSynonyms db schemaFilter with
              | .error e =>
                ((none, some ("failed to get synonyms: " ++ e)),
                 ["GetDatabaseInfo", "GetTables", "GetViews", "GetRoutines",
                  "GetSequences", "GetTriggers", "GetSynonyms"])
              | .ok syns =>
                ((some { DatabaseName := dbName, Version := ver,
                         DatabaseType := "Oracle", ExtractedAt := now,
                         Tables := tables, Views := views,
                         Routines := routines, Sequences := seqs,
                         Triggers := trgs, Synonyms := syns,
                         Indexes := (tables.map Table.Indexes).flatten },
                  none),
                 oraStepOrder)

/-- Oracle ExtractSchema as the caller sees it. -/
def oraExtractSchema (db : OraDb) (schemaFilter : List String) (now : Nat) :
    Option Schema × Option GoErr :=
  (oraExtractSchemaT db schemaFilter now).1

/-! ## SQL Server adapter (src/unnamed/part_004 lines 883-1704)

Only the parts the claims touch are embedded: the constructor's filter
default, `getColumnsForTable` with its foreign-key-target lookup,
`getIndexColumns`, and `GetTriggers`. -/

/-- Row of the SQL Server `getColumnsForTable` query; the primary,
foreign and unique flags come from the `ISNULL(...)` subqueries. -/
structure MsColumnRow where
  position : Int
  name : String
  dataType : String
  maxLength : Int
  precision : Int
  scale : Int
  isNullable : Bool
  defaultValue : String
  comment : String
  isIdentity : Bool
  isPrimary : Bool
  isForeign : Bool
  isUnique : Bool
deriving Repr, DecidableEq

/-- Row of the SQL Server `GetTriggers` query; event and timing are the
strings produced by the query's `CASE` over `OBJECTPROPERTY`, which can
be "UNKNOWN". -/
structure MsTriggerRow where
  schemaName : String
  name : String
  tableName : String
  event : String
  timing : String
  status : String
  comment : String
deriving Repr, DecidableEq

/-- The SQL Server catalog as seen through the embedded queries. -/
structure MsDb where
  columnsCatalog : String → String → Except GoErr (List MsColumnRow)
  fkTargetCatalog : String → String → String →
    Except GoErr (Option String × Option String)
  indexColsCatalog : String → String → String →
    Except GoErr (List (Nat × String))
  triggersCatalog : Except GoErr (List MsTriggerRow)

/-- Semantics of the SQL Server adapter's appended
`AND s.name IN (...)` clause. -/
def msVisible (schemaFilter : List String) (owner : String) : Bool :=
  schemaFilter.isEmpty || schemaFilter.contains owner

/-- SQL Server NewExtractor (part_004 lines 915-936): an empty
configured filter defaults to the single schema "dbo". -/
def msNewExtractorSchemas (cfgFilter : List String) : List String :=
  if cfgFilter.isEmpty then ["dbo"] else cfgFilter

/-- SQL Server getForeignKeyTarget (part_004 lines 1136-1163). -/
def msGetForeignKeyTarget (db : MsDb) (schema table column : String) :
    Except GoErr (Option (String × String)) :=
  match db.fkTargetCatalog schema table column with
  | .error e => .error e
  | .ok (some t, some c) => .ok (some (t, c))
  | .ok _ => .ok none

/-- Per-row body of the SQL Server `getColumnsForTable` loop (part_004
lines 1100-1130), with the same `if err == nil && fkInfo != nil` guard
around the foreign-key-target lookup as the PostgreSQL adapter. -/
def msScanColumn (db : MsDb) (schema tableName : String)
    (r : MsColumnRow) : Column :=
  let col : Column :=
    { Position := r.position, Name := r.name, DataType := r.dataType,
      Length := r.maxLength, Precision := r.precision, Scale := r.scale,
      Nullable := r.isNullable, DefaultValue := r.defaultValue,
      Comment := r.comment, IsPrimaryKey := r.isPrimary,
      IsForeignKey := r.isForeign, IsUnique := r.isUnique,
      IsAutoIncrement := r.isIdentity }
  if r.isForeign then
    match msGetForeignKeyTarget db schema tableName r.name with
    | .ok (some (t, c)) => { col with FKTargetTable := t, FKTargetColumn := c }
    | _ => col
  else col

/-- SQL Server getColumnsForTable (part_004 lines 1048-1133). -/
def msGetColumnsForTable (db : MsDb) (schema tableName : String) :
    Except GoErr (List Column) :=
  match db.columnsCatalog schema tableName with
  | .error e => .error e
  | .ok rows => .ok (rows.map (msScanColumn db schema tableName))

/-- SQL Server getIndexColumns (part_004 lines 1221-1249): rows ordered
by `ic.key_ordinal`, copied in order. -/
def msGetIndexColumns (db : MsDb) (schema table indexName : String) :
    Except GoErr (List String) :=
  match db.indexColsCatalog schema table indexName with
  | .error e => .error e
  | .ok pairs => .ok ((sortPairs pairs).map Prod.snd)

/-- Per-row body of the SQL Server `GetTriggers` loop (part_004 lines
1577-1592): every trigger gets `TargetType = "TABLE"` and
`Level = "ROW"`, whatever the catalog row says. -/
def msScanTrigger (r : MsTriggerRow) : Trigger :=
  { Owner := r.schemaName, Name := r.name, TargetTable := r.tableName,
    Event := r.event, Timing := r.timing, Status := r.status,
    Comment := r.comment, TargetType := "TABLE", Level := "ROW" }

/-- SQL Server GetTriggers (part_004 lines 1528-1595). -/
def msGetTriggers (db : MsDb) (schemaFilter : List String) :
    Except GoErr (List Trigger) :=
  match db.triggersCatalog with
  | .error e => .error e
  | .ok rows =>
    .ok ((rows.filter fun r => msVisible schemaFilter r.schemaName).map
      msScanTrigger)

/-! ## Spec-modelled MySQL fragment

The MySQL adapter's source file is not under src/ (only the factory in
part_004 references it).  Modelled from the spec: "A dialect that lacks
a concept entirely (e.g., no native sequences or synonyms) returns an
empty, non-nil collection with a nil error" and "a MySQL adapter's
`GetSequences` returns `([], nil)`, never an error". -/

/-- Modelled from the spec: the absent MySQL adapter's `GetSequences`,
which must return an empty non-nil slice and a nil error for every
database state. -/
def mysqlGetSequences (_ctx : Unit) : GoSlice Sequence × Option GoErr :=
  ({ isNil := false, elems := [] }, none)

/-! ## Sorting lemmas for the index-column ordering -/

/-- Inserting into the ordinal-sorted list is a permutation of
consing. -/
theorem insPair_perm (p : Nat × String) (l : List (Nat × String)) :
    (insPair p l).Perm (p :: l) := by
  induction l with
  | nil => simp [insPair]
  | cons q qs ih =>
    simp only [insPair]
    split
    · exact List.Perm.refl _
    · exact (ih.cons q).trans (List.Perm.swap p q qs)

/-- `sortPairs` permutes its input: no row is dropped, duplicated or
invented. -/
theorem sortPairs_perm (l : List (Nat × String)) : (sortPairs l).Perm l := by
  induction l with
  | nil => simp [sortPairs]
  | cons p ps ih => exact (insPair_perm p (sortPairs ps)).trans (ih.cons p)

/-- Insertion preserves ascending-ordinal sortedness. -/
theorem insPair_pairwise (p : Nat × String) {l : List (Nat × String)}
    (h : l.Pairwise fun a b => a.1 ≤ b.1) :
    (insPair p l).Pairwise fun a b => a.1 ≤ b.1 := by
  induction l with
  | nil => simp [insPair]
  | cons q qs ih =>
    rw [List.pairwise_cons] at h
    obtain ⟨hq, hqs⟩ := h
    simp only [insPair]
    split
    case isTrue hle =>
      refine List.pairwise_cons.mpr ⟨?_, List.pairwise_cons.mpr ⟨hq, hqs⟩⟩
      intro r hr
      rcases List.mem_cons.mp hr with rfl | hr'
      · exact hle
      · exact le_trans hle (hq r hr')
    case isFalse hnle =>
      refine List.pairwise_cons.mpr ⟨?_, ih hqs⟩
      intro r hr
      have hmem : r ∈ p :: qs := (insPair_perm p qs).mem_iff.mp hr
      rcases List.mem_cons.mp hmem with rfl | hr'
      · exact le_of_not_le hnle
      · exact hq r hr'

/-- `sortPairs` sorts by ascending ordinal. -/
theorem sortPairs_pairwise (l : List (Nat × String)) :
    (sortPairs l).Pairwise fun a b => a.1 ≤ b.1 := by
  induction l with
  | nil => simp [sortPairs]
  | cons p ps ih => exact insPair_pairwise p ih

/-! ## Claim C1 -/

/-- Claim C1: the canonical model's Routine, Trigger and View types
contain no field capable of holding executable body text — none of
their field names is one of the forbidden names Body, Definition,
Script, Text, Source checked by `validateNoSourceCodeFields`, so no
Schema produced by an adapter can carry such text in those types. -/
theorem model_structs_have_no_source_fields :
    ∀ f ∈ routineFieldNames ++ triggerFieldNames ++ viewFieldNames,
      f ∉ forbiddenFieldNames := by decide

/-- Concrete instance of the C1 theorem at the field "Signature". -/
theorem model_structs_have_no_source_fields_witness :
    "Signature" ∈ routineFieldNames ++ triggerFieldNames ++ viewFieldNames ∧
      "Signature" ∉ forbiddenFieldNames :=
  ⟨by decide, model_structs_have_no_source_fields "Signature" (by decide)⟩

/-! ## Claim C3 -/

/-- The per-argument signature template exactly as the claim words it:
"<TYPE> <name>(<mode> <argname> <datatype>, ...)", with
" RETURNS <returnType>" appended for functions.  This definition
follows the spec's words, for comparison with `buildSignature`, which
follows the source. -/
def specSignatureClaimed (name : String) (args : List RoutineArgument)
    (routineType returnType : String) : String :=
  let argStrs := args.map fun a => a.Mode ++ " " ++ a.Name ++ " " ++ a.DataType
  let core := routineType ++ " " ++ name ++ "(" ++ goJoinComma argStrs ++ ")"
  if routineType == "FUNCTION" then core ++ " RETURNS " ++ returnType else core

/-- The RAISE_SALARY scenario's argument list. -/
def raiseSalaryArgs : List RoutineArgument :=
  [{ Name := "EMP_ID", Position := 1, Mode := "IN", DataType := "NUMBER" },
   { Name := "PCT", Position := 2, Mode := "IN", DataType := "NUMBER" }]

/-- Claim C3 is self-contradictory on the code: at the claim's own
RAISE_SALARY input the source's `buildSignature` yields
"PROCEDURE RAISE_SALARY(EMP_ID IN NUMBER, PCT IN NUMBER)" (as the
claim's scenario expects), while the claim's template
"<TYPE> <name>(<mode> <argname> <datatype>, ...)" would yield
"PROCEDURE RAISE_SALARY(IN EMP_ID NUMBER, IN PCT NUMBER)". -/
theorem signature_template_counterexample :
    buildSignature "RAISE_SALARY" raiseSalaryArgs "PROCEDURE" =
      "PROCEDURE RAISE_SALARY(EMP_ID IN NUMBER, PCT IN NUMBER)" ∧
    specSignatureClaimed "RAISE_SALARY" raiseSalaryArgs "PROCEDURE" "" =
      "PROCEDURE RAISE_SALARY(IN EMP_ID NUMBER, IN PCT NUMBER)" ∧
    buildSignature "RAISE_SALARY" raiseSalaryArgs "PROCEDURE" ≠
      specSignatureClaimed "RAISE_SALARY" raiseSalaryArgs "PROCEDURE" "" := by
  refine ⟨by decide, by decide, by decide⟩

/-- The amended template, following the source's argument order
"<argname> <mode> <datatype>" and the Oracle adapter's documented
" RETURN <type>" placeholder suffix for functions, written as a direct
recursion independent of the source's map-then-join shape. -/
def argListAmended : List RoutineArgument → String
  | [] => ""
  | [a] => a.Name ++ " " ++ a.Mode ++ " " ++ a.DataType
  | a :: rest =>
    a.Name ++ " " ++ a.Mode ++ " " ++ a.DataType ++ ", " ++
      argListAmended rest

/-- The amended signature synthesis claim as a reference function. -/
def specSignatureAmended (name : String) (args : List RoutineArgument)
    (routineType : String) : String :=
  if routineType == "FUNCTION" then
    "FUNCTION " ++ name ++ "(" ++ argListAmended args ++ ") RETURN <type>"
  else
    "PROCEDURE " ++ name ++ "(" ++ argListAmended args ++ ")"

/-- Claim C3 (amended): for every routine, `buildSignature` synthesizes
"<TYPE> <name>(<argname> <mode> <datatype>, ...)" with arguments in the
given (catalog) order, using the literal keyword "PROCEDURE" for
non-functions and, for functions, "FUNCTION" with the suffix
" RETURN <type>" (the documented placeholder token); in particular the
RAISE_SALARY scenario synthesizes exactly the claimed string. -/
theorem signature_synthesis_amended :
    (∀ (name : String) (args : List RoutineArgument) (routineType : String),
      buildSignature name args routineType =
        specSignatureAmended name args routineType) ∧
    buildSignature "RAISE_SALARY" raiseSalaryArgs "PROCEDURE" =
      "PROCEDURE RAISE_SALARY(EMP_ID IN NUMBER, PCT IN NUMBER)" := by
  have hjoin : ∀ args : List RoutineArgument,
      goJoinComma (args.map fun arg =>
        arg.Name ++ " " ++ arg.Mode ++ " " ++ arg.DataType) =
        argListAmended args := by
    intro args
    induction args with
    | nil => rfl
    | cons a rest ih =>
      cases rest with
      | nil => rfl
      | cons b rest' =>
        simp only [List.map, argListAmended, goJoinComma] at ih ⊢
        rw [ih]
  refine ⟨fun name args routineType => ?_, by decide⟩
  unfold buildSignature specSignatureAmended
  simp only []
  rw [hjoin]

/-! ## Claim C5 -/

/-- Claim C5 fails for the Oracle adapter: its constructor stores an
empty configured filter unchanged, and with an empty filter the Oracle
catalog queries append no owner clause at all, so objects of two
different owners ("SYS" and "HR") are both visible — the queries are
not restricted to the authenticated user's own schema. -/
theorem empty_filter_oracle_counterexample :
    oraNewExtractorSchemas [] = [] ∧
    oraVisible (oraNewExtractorSchemas []) "SYS" = true ∧
    oraVisible (oraNewExtractorSchemas []) "HR" = true := by decide

/-- Claim C5 (amended): with an empty configured filter the PostgreSQL
constructor defaults to the single schema "public" and the SQL Server
constructor to "dbo"; the Oracle constructor applies no default, its
filter stays empty and its catalog queries are left unrestricted by
owner (every owner is visible).  Non-empty filters are kept unchanged
by all three constructors. -/
theorem empty_filter_defaults_amended :
    pgNewExtractorSchemas [] = ["public"] ∧
    msNewExtractorSchemas [] = ["dbo"] ∧
    oraNewExtractorSchemas [] = [] ∧
    (∀ owner, oraVisible (oraNewExtractorSchemas []) owner = true) ∧
    (∀ s rest, pgNewExtractorSchemas (s :: rest) = s :: rest ∧
      msNewExtractorSchemas (s :: rest) = s :: rest ∧
      oraNewExtractorSchemas (s :: rest) = s :: rest) :=
  ⟨rfl, rfl, rfl, fun _ => rfl, fun _ _ => ⟨rfl, rfl, rfl⟩⟩

/-! ## Claim C7 -/

/-- Claim C7: a dialect lacking a concept returns an empty, non-nil
collection and a nil error: the PostgreSQL adapter's GetSynonyms does
so for every database state, and the (spec-modelled) MySQL adapter's
GetSequences likewise. -/
theorem missing_feature_returns_empty_non_nil :
    ∀ db : PgDb,
      pgGetSynonyms db = ({ isNil := false, elems := [] }, none) ∧
      mysqlGetSequences () = ({ isNil := false, elems := [] }, none) :=
  fun _ => ⟨rfl, rfl⟩

/-! ## Claim C8 -/

/-- Claim C8: for each of the three embedded adapters, the column list
of an index is the catalog's (key-ordinal, name) rows arranged in
ascending ordinal order — some permutation of the returned rows (so
nothing is inserted, dropped or otherwise reordered) whose ordinal
sequence is ascending, projected to the names. -/
theorem index_columns_ascending_key_order :
    (∀ (db : PgDb) (s i : String) (pairs : List (Nat × String))
        (cols : List String),
      db.indexColsCatalog s i = .ok pairs →
      pgGetIndexColumns db s i = .ok cols →
      ∃ qs : List (Nat × String), qs.Perm pairs ∧
        (qs.Pairwise fun a b => a.1 ≤ b.1) ∧ cols = qs.map Prod.snd) ∧
    (∀ (db : OraDb) (o i : String) (pairs : List (Nat × String))
        (cols : List String),
      db.indexColsCatalog o i = .ok pairs →
      oraGetIndexColumns db o i = .ok cols →
      ∃ qs : List (Nat × String), qs.Perm pairs ∧
        (qs.Pairwise fun a b => a.1 ≤ b.1) ∧ cols = qs.map Prod.snd) ∧
    (∀ (db : MsDb) (s t i : String) (pairs : List (Nat × String))
        (cols : List String),
      db.indexColsCatalog s t i = .ok pairs →
      msGetIndexColumns db s t i = .ok cols →
      ∃ qs : List (Nat × String), qs.Perm pairs ∧
        (qs.Pairwise fun a b => a.1 ≤ b.1) ∧ cols = qs.map Prod.snd) := by
  refine ⟨?_, ?_, ?_⟩
  · intro db s i pairs cols hq hc
    refine ⟨sortPairs pairs, sortPairs_perm pairs, sortPairs_pairwise pairs, ?_⟩
    unfold pgGetIndexColumns at hc
    rw [hq] at hc
    exact (Except.ok.injEq _ _ ▸ hc.symm)
  · intro db o i pairs cols hq hc
    refine ⟨sortPairs pairs, sortPairs_perm pairs, sortPairs_pairwise pairs, ?_⟩
    unfold oraGetIndexColumns at hc
    rw [hq] at hc
    exact (Except.ok.injEq _ _ ▸ hc.symm)
  · intro db s t i pairs cols hq hc
    refine ⟨sortPairs pairs, sortPairs_perm pairs, sortPairs_pairwise pairs, ?_⟩
    unfold msGetIndexColumns at hc
    rw [hq] at hc
    exact (Except.ok.injEq _ _ ▸ hc.symm)

/-- A PostgreSQL catalog whose one index has a two-column composite key
delivered out of key order. -/
def pgDbC8 : PgDb where
  databaseInfo := .ok ("d", "v")
  tablesCatalog := .ok []
  columnsCatalog := fun _ _ => .ok []
  fkTargetCatalog := fun _ _ _ => .ok (none, none)
  indexesCatalog := fun _ _ => .ok []
  indexColsCatalog := fun _ _ => .ok [(2, "last_name"), (1, "dept_id")]
  viewsCatalog := .ok []
  routinesCatalog := .ok []
  sequencesCatalog := .ok []
  triggersCatalog := .ok []

/-- Concrete instance of the C8 theorem: a composite index delivered
as ordinals [2, 1] comes out as names in ascending ordinal order. -/
theorem index_columns_ascending_key_order_witness :
    ∃ qs : List (Nat × String),
      qs.Perm [(2, "last_name"), (1, "dept_id")] ∧
      (qs.Pairwise fun a b => a.1 ≤ b.1) ∧
      ["dept_id", "last_name"] = qs.map Prod.snd :=
  index_columns_ascending_key_order.1 pgDbC8 "public" "ix_emp"
    [(2, "last_name"), (1, "dept_id")] ["dept_id", "last_name"] rfl rfl

/-! ## Claim C10 -/

/-- Claim C10: every trigger produced by the SQL Server adapter's
GetTriggers carries the constants Level = "ROW" and
TargetType = "TABLE", whatever the catalog rows say. -/
theorem mssql_triggers_level_row_target_table :
    ∀ (db : MsDb) (schemaFilter : List String) (ts : List Trigger),
      msGetTriggers db schemaFilter = .ok ts →
      ∀ t ∈ ts, t.Level = "ROW" ∧ t.TargetType = "TABLE" := by
  intro db schemaFilter ts hok t ht
  unfold msGetTriggers at hok
  cases hcat : db.triggersCatalog with
  | error e => rw [hcat] at hok; cases hok
  | ok rows =>
    rw [hcat] at hok
    cases hok
    obtain ⟨r, _, rfl⟩ := List.mem_map.mp ht
    exact ⟨rfl, rfl⟩

/-- A statement-style catalog trigger row (an AFTER trigger with event
UPDATE) to instantiate C10 on. -/
def msTrgRowC10 : MsTriggerRow where
  schemaName := "dbo"
  name := "trg_audit"
  tableName := "orders"
  event := "UPDATE"
  timing := "AFTER"
  status := "ENABLED"
  comment := ""

/-- A SQL Server catalog containing just `msTrgRowC10`. -/
def msDbC10 : MsDb where
  columnsCatalog := fun _ _ => .ok []
  fkTargetCatalog := fun _ _ _ => .ok (none, none)
  indexColsCatalog := fun _ _ _ => .ok []
  triggersCatalog := .ok [msTrgRowC10]

/-- Concrete instance of the C10 theorem on `msDbC10`. -/
theorem mssql_triggers_level_row_target_table_witness :
    (msScanTrigger msTrgRowC10).Level = "ROW" ∧
    (msScanTrigger msTrgRowC10).TargetType = "TABLE" :=
  mssql_triggers_level_row_target_table msDbC10 []
    [msScanTrigger msTrgRowC10] rfl _ (List.mem_singleton.mpr rfl)

/-! ## Claim C2 -/

/-- A catalog column row flagged as a foreign key. -/
def pgColRowC2 : PgColumnRow where
  position := 1
  name := "customer_id"
  dataType := "integer"
  nullable := false
  defaultValue := ""
  comment := ""
  isPrimary := false
  isForeign := true
  isUnique := false

/-- A PostgreSQL catalog whose foreign-key-target lookup fails with a
transient error while the column query itself succeeds. -/
def pgDbC2x : PgDb where
  databaseInfo := .ok ("d", "v")
  tablesCatalog := .ok []
  columnsCatalog := fun _ _ => .ok [pgColRowC2]
  fkTargetCatalog := fun _ _ _ => .error "connection reset by peer"
  indexesCatalog := fun _ _ => .ok []
  indexColsCatalog := fun _ _ => .ok []
  viewsCatalog := .ok []
  routinesCatalog := .ok []
  sequencesCatalog := .ok []
  triggersCatalog := .ok []

/-- Claim C2 fails on the code: when the per-column foreign-key-target
lookup fails, the PostgreSQL adapter still returns the column with
`IsForeignKey = true` and both target fields empty. -/
theorem fk_targets_counterexample :
    pgGetColumnsForTable pgDbC2x "public" "orders" =
      .ok [{ Name := "customer_id", Position := 1, DataType := "integer",
             IsForeignKey := true, FKTargetTable := "",
             FKTargetColumn := "" }] ∧
    pgDbC2x.fkTargetCatalog "public" "orders" "customer_id" =
      .error "connection reset by peer" :=
  ⟨rfl, rfl⟩

/-- Inversion of a successful foreign-key-target lookup: the adapter
reports a pair exactly when the catalog row had both names non-NULL. -/
theorem pgGetForeignKeyTarget_ok_some {db : PgDb} {s t c tt cc : String}
    (h : pgGetForeignKeyTarget db s t c = .ok (some (tt, cc))) :
    db.fkTargetCatalog s t c = .ok (some tt, some cc) := by
  unfold pgGetForeignKeyTarget at h
  cases hq : db.fkTargetCatalog s t c with
  | error e => rw [hq] at h; cases h
  | ok pr =>
    obtain ⟨a, b⟩ := pr
    rw [hq] at h
    cases a with
    | none => cases h
    | some av =>
      cases b with
      | none => cases h
      | some bv =>
        simp only [Except.ok.injEq, Option.some.injEq, Prod.mk.injEq] at h
        rw [h.1, h.2]

/-- Shape of one scanned PostgreSQL column: the FK flag comes from the
row, and the target fields are either both untouched (empty) or both
filled from one successful lookup row. -/
theorem pgScanColumn_spec (db : PgDb) (s t : String) (r : PgColumnRow) :
    (pgScanColumn db s t r).Name = r.name ∧
    (pgScanColumn db s t r).IsForeignKey = r.isForeign ∧
    (((pgScanColumn db s t r).FKTargetTable = "" ∧
      (pgScanColumn db s t r).FKTargetColumn = "") ∨
     (r.isForeign = true ∧
      ∃ tt cc, db.fkTargetCatalog s t r.name = .ok (some tt, some cc) ∧
        (pgScanColumn db s t r).FKTargetTable = tt ∧
        (pgScanColumn db s t r).FKTargetColumn = cc)) := by
  unfold pgScanColumn
  cases hisf : r.isForeign with
  | false => exact ⟨rfl, rfl, .inl ⟨rfl, rfl⟩⟩
  | true =>
    cases hfk : pgGetForeignKeyTarget db s t r.name with
    | error e => exact ⟨rfl, rfl, .inl ⟨rfl, rfl⟩⟩
    | ok info =>
      cases info with
      | none => exact ⟨rfl, rfl, .inl ⟨rfl, rfl⟩⟩
      | some pr =>
        obtain ⟨tt, cc⟩ := pr
        exact ⟨rfl, rfl, .inr ⟨rfl,
          ⟨tt, cc, pgGetForeignKeyTarget_ok_some hfk, rfl, rfl⟩⟩⟩

/-- The two FK-target fields of an Oracle constraint record are set
together or not at all. -/
def consRecTogether (rec : OraConsRec) : Prop :=
  rec.fkTable.isSome = rec.fkColumn.isSome

/-- Applying one constraint row preserves the together-property. -/
theorem oraApplyConsRow_together (row : OraConsRow) (rec : OraConsRec)
    (h : consRecTogether rec) : consRecTogether (oraApplyConsRow row rec) := by
  unfold oraApplyConsRow
  split
  · exact h
  · split
    · rfl
    · exact h
  · exact h
  · exact h

/-- `consUpd` preserves an entry-wise property closed under the update
function. -/
theorem consUpd_entries {P : OraConsRec → Prop} (k : String)
    (f : OraConsRec → OraConsRec) (m : List (String × OraConsRec))
    (hm : ∀ p ∈ m, P p.2) (hf : ∀ r, P r → P (f r)) (h0 : P {}) :
    ∀ p ∈ consUpd k f m, P p.2 := by
  induction m with
  | nil =>
    intro p hp
    simp only [consUpd, List.mem_singleton] at hp
    subst hp
    exact hf _ h0
  | cons q rest ih =>
    intro p hp
    simp only [consUpd] at hp
    split at hp
    · rcases List.mem_cons.mp hp with rfl | hp'
      · exact hf _ (hm q (List.mem_cons_self q rest))
      · exact hm p (List.mem_cons_of_mem q hp')
    · rcases List.mem_cons.mp hp with heq | hp'
      · exact heq ▸ hm q (List.mem_cons_self q rest)
      · exact ih (fun x hx => hm x (List.mem_cons_of_mem q hx)) p hp'

/-- Every record in the built `constraintMap` has its FK-target fields
populated together or not at all. -/
theorem constraintMap_together (rows : List OraConsRow) :
    ∀ p ∈ oraConstraintMap rows, consRecTogether p.2 := by
  unfold oraConstraintMap
  have key : ∀ (rs : List OraConsRow) (m : List (String × OraConsRec)),
      (∀ p ∈ m, consRecTogether p.2) →
      ∀ p ∈ rs.foldl
        (fun m row => consUpd row.colName (oraApplyConsRow row) m) m,
        consRecTogether p.2 := by
    intro rs
    induction rs with
    | nil => intro m hm; exact hm
    | cons row rest ih =>
      intro m hm
      simp only [List.foldl_cons]
      exact ih _ (consUpd_entries row.colName (oraApplyConsRow row) m hm
        (oraApplyConsRow_together row) rfl)
  exact key rows [] (fun q hq => (List.not_mem_nil q hq).elim)

/-- A successful `consFind` returns a binding of the map. -/
theorem consFind_mem {k : String} {m : List (String × OraConsRec)}
    {r : OraConsRec} (h : consFind k m = some r) : (k, r) ∈ m := by
  induction m with
  | nil => cases h
  | cons q rest ih =>
    obtain ⟨k', r'⟩ := q
    unfold consFind at h
    split at h
    · cases h
      rename_i heq
      subst heq
      exact List.mem_cons_self _ _
    · exact List.mem_cons_of_mem _ (ih h)

/-- Shape of one Oracle-enriched column, given a column whose FK fields
start out clear (as every column scanned by `oraScanColumn` does) and a
constraint map whose records respect the together-property. -/
theorem oraEnrichColumn_spec (m : List (String × OraConsRec)) (col : Column)
    (_h0 : col.IsForeignKey = false) (ht0 : col.FKTargetTable = "")
    (hc0 : col.FKTargetColumn = "")
    (htog : ∀ p ∈ m, consRecTogether p.2) :
    (oraEnrichColumn m col).Name = col.Name ∧
    ((oraEnrichColumn m col).IsForeignKey = false →
      (oraEnrichColumn m col).FKTargetTable = "" ∧
      (oraEnrichColumn m col).FKTargetColumn = "") ∧
    ((oraEnrichColumn m col).IsForeignKey = true →
      ((oraEnrichColumn m col).FKTargetTable = "" ∧
       (oraEnrichColumn m col).FKTargetColumn = "") ∨
      ∃ rec, consFind col.Name m = some rec ∧
        rec.fkTable = some (oraEnrichColumn m col).FKTargetTable ∧
        rec.fkColumn = some (oraEnrichColumn m col).FKTargetColumn) := by
  unfold oraEnrichColumn
  cases hfind : consFind col.Name m with
  | none => exact ⟨rfl, fun _ => ⟨ht0, hc0⟩, fun _ => .inl ⟨ht0, hc0⟩⟩
  | some rec =>
    have htogr : consRecTogether rec := htog _ (consFind_mem hfind)
    cases hfk : rec.fk with
    | false =>
      refine ⟨rfl, fun _ => ⟨by simp [hfk, ht0], by simp [hfk, hc0]⟩,
        fun _ => .inl ⟨by simp [hfk, ht0], by simp [hfk, hc0]⟩⟩
    | true =>
      cases hft : rec.fkTable with
      | none =>
        have hfc : rec.fkColumn = none := by
          rw [consRecTogether, hft] at htogr
          cases hcc : rec.fkColumn with
          | none => rfl
          | some cv => rw [hcc] at htogr; cases htogr
        exact ⟨rfl, fun h => by simp [hfk] at h,
          fun _ => .inl ⟨by simp [hfk, hft, ht0], by simp [hfk, hfc, hc0]⟩⟩
      | some tv =>
        have hfc : ∃ cv, rec.fkColumn = some cv := by
          rw [consRecTogether, hft] at htogr
          cases hcc : rec.fkColumn with
          | none => rw [hcc] at htogr; cases htogr
          | some cv => exact ⟨cv, rfl⟩
        obtain ⟨cv, hcv⟩ := hfc
        refine ⟨rfl, fun h => by simp [hfk] at h,
          fun _ => .inr ⟨rec, rfl, ?_, ?_⟩⟩
        · simp [hfk, hft]
        · simp [hfk, hcv]

/-- Claim C2 (amended): for the PostgreSQL adapter and the Oracle
adapter, the two FK-target fields are populated together or not at all,
and a column with `IsForeignKey = false` always has both empty; a
column with `IsForeignKey = true` carries either both fields empty
(when the target lookup failed, found no row, or the constraint row had
NULL referenced names) or both fields filled from the single catalog
lookup result / constraint-map record — non-emptiness is not
guaranteed. -/
theorem fk_targets_populated_together :
    (∀ (db : PgDb) (s t : String) (cols : List Column),
      pgGetColumnsForTable db s t = .ok cols →
      ∀ c ∈ cols,
        (c.IsForeignKey = false →
          c.FKTargetTable = "" ∧ c.FKTargetColumn = "") ∧
        (c.IsForeignKey = true →
          (c.FKTargetTable = "" ∧ c.FKTargetColumn = "") ∨
          ∃ tt cc, db.fkTargetCatalog s t c.Name = .ok (some tt, some cc) ∧
            c.FKTargetTable = tt ∧ c.FKTargetColumn = cc)) ∧
    (∀ (db : OraDb) (o t : String) (consRows : List OraConsRow)
        (cols : List Column),
      db.consCatalog o t = .ok consRows →
      oraGetColumnsForTable db o t = .ok cols →
      ∀ c ∈ cols,
        (c.IsForeignKey = false →
          c.FKTargetTable = "" ∧ c.FKTargetColumn = "") ∧
        (c.IsForeignKey = true →
          (c.FKTargetTable = "" ∧ c.FKTargetColumn = "") ∨
          ∃ rec, consFind c.Name (oraConstraintMap consRows) = some rec ∧
            rec.fkTable = some c.FKTargetTable ∧
            rec.fkColumn = some c.FKTargetColumn)) := by
  constructor
  · intro db s t cols hok c hc
    unfold pgGetColumnsForTable at hok
    cases hcat : db.columnsCatalog s t with
    | error e => rw [hcat] at hok; cases hok
    | ok rows =>
      rw [hcat] at hok
      cases hok
      obtain ⟨r, _, rfl⟩ := List.mem_map.mp hc
      obtain ⟨hname, hfkeq, hdisj⟩ := pgScanColumn_spec db s t r
      constructor
      · intro h
        rcases hdisj with ⟨h1, h2⟩ | ⟨hisf, _⟩
        · exact ⟨h1, h2⟩
        · rw [h] at hfkeq; rw [← hfkeq] at hisf; cases hisf
      · intro _
        rcases hdisj with ⟨h1, h2⟩ | ⟨_, tt, cc, hq, h1, h2⟩
        · exact .inl ⟨h1, h2⟩
        · exact .inr ⟨tt, cc, by rw [hname]; exact hq, h1, h2⟩
  · intro db o t consRows cols hcons hok c hc
    unfold oraGetColumnsForTable at hok
    cases hcat : db.columnsCatalog o t with
    | error e => rw [hcat] at hok; cases hok
    | ok colRows =>
      rw [hcat] at hok
      unfold oraEnrichColumns at hok
      rw [hcons] at hok
      cases hok
      obtain ⟨base, hbase, rfl⟩ := List.mem_map.mp hc
      obtain ⟨r, _, rfl⟩ := List.mem_map.mp hbase
      obtain ⟨hname, himp1, himp2⟩ :=
        oraEnrichColumn_spec (oraConstraintMap consRows) (oraScanColumn r)
          rfl rfl rfl (constraintMap_together consRows)
      refine ⟨himp1, fun h => ?_⟩
      rcases himp2 h with hl | ⟨rec, hfind, h1, h2⟩
      · exact .inl hl
      · exact .inr ⟨rec, by rw [hname]; exact hfind, h1, h2⟩

/-- A PostgreSQL catalog with one FK column whose target lookup
succeeds, to instantiate the amended C2 theorem on. -/
def pgDbC2w : PgDb where
  databaseInfo := .ok ("d", "v")
  tablesCatalog := .ok []
  columnsCatalog := fun _ _ => .ok [pgColRowC2]
  fkTargetCatalog := fun _ _ _ => .ok (some "public.customers", some "id")
  indexesCatalog := fun _ _ => .ok []
  indexColsCatalog := fun _ _ => .ok []
  viewsCatalog := .ok []
  routinesCatalog := .ok []
  sequencesCatalog := .ok []
  triggersCatalog := .ok []

/-- Concrete instance of the amended C2 theorem: on `pgDbC2w` the
produced FK column satisfies the together-property. -/
theorem fk_targets_populated_together_witness :
    ((pgScanColumn pgDbC2w "public" "orders" pgColRowC2).FKTargetTable = "" ∧
     (pgScanColumn pgDbC2w "public" "orders" pgColRowC2).FKTargetColumn = "")
    ∨
    ∃ tt cc, pgDbC2w.fkTargetCatalog "public" "orders"
        (pgScanColumn pgDbC2w "public" "orders" pgColRowC2).Name =
        .ok (some tt, some cc) ∧
      (pgScanColumn pgDbC2w "public" "orders" pgColRowC2).FKTargetTable = tt ∧
      (pgScanColumn pgDbC2w "public" "orders" pgColRowC2).FKTargetColumn = cc :=
  (fk_targets_populated_together.1 pgDbC2w "public" "orders"
    [pgScanColumn pgDbC2w "public" "orders" pgColRowC2] rfl
    (pgScanColumn pgDbC2w "public" "orders" pgColRowC2)
    (List.mem_singleton.mpr rfl)).2 rfl

/-! ## Claim C6 -/

/-- A SQL Server catalog column row flagged as a foreign key. -/
def msColRowC6 : MsColumnRow where
  position := 1
  name := "customer_id"
  dataType := "int"
  maxLength := 4
  precision := 10
  scale := 0
  isNullable := false
  defaultValue := ""
  comment := ""
  isIdentity := false
  isPrimary := false
  isForeign := true
  isUnique := false

/-- A SQL Server catalog whose foreign-key-target lookup fails while
the column query succeeds. -/
def msDbC6x : MsDb where
  columnsCatalog := fun _ _ => .ok [msColRowC6]
  fkTargetCatalog := fun _ _ _ => .error "permission denied on sys.foreign_keys"
  indexColsCatalog := fun _ _ _ => .ok []
  triggersCatalog := .ok []

/-- Claim C6 fails on the code: the SQL Server adapter's
getColumnsForTable performs the foreign-key-target lookup for the FK
column "customer_id", that internal query returns an error, and the
call still returns a nil error with the column's target fields left
empty. -/
theorem fk_error_swallowed_counterexample :
    msDbC6x.fkTargetCatalog "dbo" "orders" "customer_id" =
      .error "permission denied on sys.foreign_keys" ∧
    msGetColumnsForTable msDbC6x "dbo" "orders" =
      .ok [{ Name := "customer_id", Position := 1, DataType := "int",
             Length := 4, Precision := 10, IsForeignKey := true,
             FKTargetTable := "", FKTargetColumn := "" }] :=
  ⟨rfl, rfl⟩

/-- Claim C6 (amended): each adapter's Get* steps propagate the errors
of the catalog queries they perform — shown here for the column query
of the PostgreSQL and SQL Server getColumnsForTable and for the
PostgreSQL tables query (whose error is propagated wrapped with its
purpose) — with one exception: the per-column foreign-key-target
lookup, whose error is swallowed, so getColumnsForTable succeeds
whenever its own column query succeeds, whatever the lookup returned. -/
theorem get_columns_error_propagation :
    (∀ (db : PgDb) (s t : String) (e : GoErr),
      db.columnsCatalog s t = .error e →
      pgGetColumnsForTable db s t = .error e) ∧
    (∀ (db : PgDb) (s t : String) (rows : List PgColumnRow),
      db.columnsCatalog s t = .ok rows →
      ∃ cols, pgGetColumnsForTable db s t = .ok cols) ∧
    (∀ (db : PgDb) (schemaFilter : List String) (e : GoErr),
      db.tablesCatalog = .error e →
      pgGetTables db schemaFilter = .error ("failed to query tables: " ++ e)) ∧
    (∀ (db : MsDb) (s t : String) (e : GoErr),
      db.columnsCatalog s t = .error e →
      msGetColumnsForTable db s t = .error e) ∧
    (∀ (db : MsDb) (s t : String) (rows : List MsColumnRow),
      db.columnsCatalog s t = .ok rows →
      ∃ cols, msGetColumnsForTable db s t = .ok cols) := by
  refine ⟨?_, ?_, ?_, ?_, ?_⟩
  · intro db s t e h
    unfold pgGetColumnsForTable
    rw [h]
  · intro db s t rows h
    refine ⟨rows.map (pgScanColumn db s t), ?_⟩
    unfold pgGetColumnsForTable
    rw [h]
  · intro db schemaFilter e h
    unfold pgGetTables
    rw [h]
  · intro db s t e h
    unfold msGetColumnsForTable
    rw [h]
  · intro db s t rows h
    refine ⟨rows.map (msScanColumn db s t), ?_⟩
    unfold msGetColumnsForTable
    rw [h]

/-- A PostgreSQL catalog whose column query itself fails. -/
def pgDbC6w : PgDb where
  databaseInfo := .ok ("d", "v")
  tablesCatalog := .ok []
  columnsCatalog := fun _ _ => .error "permission denied for pg_attribute"
  fkTargetCatalog := fun _ _ _ => .ok (none, none)
  indexesCatalog := fun _ _ => .ok []
  indexColsCatalog := fun _ _ => .ok []
  viewsCatalog := .ok []
  routinesCatalog := .ok []
  sequencesCatalog := .ok []
  triggersCatalog := .ok []

/-- Concrete instance of the amended C6 theorem: a failed column query
propagates its error out of getColumnsForTable unchanged. -/
theorem get_columns_error_propagation_witness :
    pgGetColumnsForTable pgDbC6w "public" "orders" =
      .error "permission denied for pg_attribute" :=
  get_columns_error_propagation.1 pgDbC6w "public" "orders"
    "permission denied for pg_attribute" rfl

/-! ## Claim C9 -/

/-- Claim C9: after every successful extraction (PostgreSQL and Oracle
orchestrators), the root-level index collection is exactly the
concatenation of the per-table index slices in table order, and every
index reachable from its owning table is (as a value, field for field)
also in the root collection. -/
theorem root_indexes_aggregate :
    (∀ (db : PgDb) (schemaFilter : List String) (now : Nat) (s : Schema),
      (pgExtractSchema db schemaFilter now).1 = some s →
      s.Indexes = (s.Tables.map Table.Indexes).flatten ∧
      ∀ t ∈ s.Tables, ∀ i ∈ t.Indexes, i ∈ s.Indexes) ∧
    (∀ (db : OraDb) (schemaFilter : List String) (now : Nat) (s : Schema),
      (oraExtractSchema db schemaFilter now).1 = some s →
      s.Indexes = (s.Tables.map Table.Indexes).flatten ∧
      ∀ t ∈ s.Tables, ∀ i ∈ t.Indexes, i ∈ s.Indexes) := by
  constructor
  · intro db schemaFilter now s h
    unfold pgExtractSchema pgExtractSchemaT at h
    cases h1 : pgGetDatabaseInfo db with
    | error e => rw [h1] at h; exact Option.noConfusion h
    | ok info =>
      obtain ⟨dbName, ver⟩ := info
      rw [h1] at h
      cases h2 : pgGetTables db schemaFilter with
      | error e => rw [h2] at h; exact Option.noConfusion h
      | ok tables =>
        rw [h2] at h
        cases h3 : pgGetViews db schemaFilter with
        | error e => rw [h3] at h; exact Option.noConfusion h
        | ok views =>
          rw [h3] at h
          cases h4 : pgGetRoutines db schemaFilter with
          | error e => rw [h4] at h; exact Option.noConfusion h
          | ok routines =>
            rw [h4] at h
            cases h5 : pgGetSequences db schemaFilter with
            | error e => rw [h5] at h; exact Option.noConfusion h
            | ok seqs =>
              rw [h5] at h
              cases h6 : pgGetTriggers db schemaFilter with
              | error e => rw [h6] at h; exact Option.noConfusion h
              | ok trgs =>
                rw [h6] at h
                obtain rfl : _ = s := Option.some.inj h
                refine ⟨rfl, ?_⟩
                intro t ht i hi
                exact List.mem_flatten.mpr
                  ⟨t.Indexes, List.mem_map_of_mem Table.Indexes ht, hi⟩
  · intro db schemaFilter now s h
    unfold oraExtractSchema oraExtractSchemaT at h
    cases h1 : oraGetDatabaseInfo db with
    | error e => rw [h1] at h; exact Option.noConfusion h
    | ok info =>
      obtain ⟨dbName, ver⟩ := info
      rw [h1] at h
      cases h2 : oraGetTables db schemaFilter with
      | error e => rw [h2] at h; exact Option.noConfusion h
      | ok tables =>
        rw [h2] at h
        cases h3 : oraGetViews db schemaFilter with
        | error e => rw [h3] at h; exact Option.noConfusion h
        | ok views =>
          rw [h3] at h
          cases h4 : oraGetRoutines db schemaFilter with
          | error e => rw [h4] at h; exact Option.noConfusion h
          | ok routines =>
            rw [h4] at h
            cases h5 : oraGetSequences db schemaFilter with
            | error e => rw [h5] at h; exact Option.noConfusion h
            | ok seqs =>
              rw [h5] at h
              cases h6 : oraGetTriggers db schemaFilter with
              | error e => rw [h6] at h; exact Option.noConfusion h
              | ok trgs =>
                rw [h6] at h
                cases h7 : oraGetSynonyms db schemaFilter with
                | error e => rw [h7] at h; exact Option.noConfusion h
                | ok syns =>
                  rw [h7] at h
                  obtain rfl : _ = s := Option.some.inj h
                  refine ⟨rfl, ?_⟩
                  intro t ht i hi
                  exact List.mem_flatten.mpr
                    ⟨t.Indexes, List.mem_map_of_mem Table.Indexes ht, hi⟩

/-- A small healthy PostgreSQL catalog: one table with one one-column
primary-key index. -/
def pgDbC9 : PgDb where
  databaseInfo := .ok ("docdb", "15.1")
  tablesCatalog := .ok
    [{ schemaName := "public", tableName := "emp", comment := "",
       rowCount := 3, kind := "r" }]
  columnsCatalog := fun _ _ => .ok []
  fkTargetCatalog := fun _ _ _ => .ok (none, none)
  indexesCatalog := fun _ _ => .ok
    [{ name := "emp_pkey", idxType := "btree", isUnique := true,
       isPrimary := true, comment := "" }]
  indexColsCatalog := fun _ _ => .ok [(1, "id")]
  viewsCatalog := .ok []
  routinesCatalog := .ok []
  sequencesCatalog := .ok []
  triggersCatalog := .ok []

/-- The index extracted from `pgDbC9`. -/
def pgIdxC9 : Index where
  Name := "emp_pkey"
  «Type» := "btree"
  IsUnique := true
  IsPrimary := true
  Comment := ""
  TableName := "emp"
  Owner := "public"
  IsEnabled := true
  Columns := ["id"]

/-- The schema extracted from `pgDbC9`. -/
def pgSchemaC9 : Schema where
  DatabaseName := "docdb"
  Version := "15.1"
  DatabaseType := "PostgreSQL"
  ExtractedAt := 7
  Tables := [{ Owner := "public", Name := "emp", Comment := "",
               RowCount := 3, «Type» := "TABLE", Columns := [],
               Indexes := [pgIdxC9] }]
  Views := []
  Routines := []
  Sequences := []
  Triggers := []
  Synonyms := []
  Indexes := [pgIdxC9]

/-- Concrete instance of the C9 theorem on `pgDbC9`. -/
theorem root_indexes_aggregate_witness :
    pgSchemaC9.Indexes = (pgSchemaC9.Tables.map Table.Indexes).flatten :=
  (root_indexes_aggregate.1 pgDbC9 ["public"] 7 pgSchemaC9 rfl).1

/-! ## Claim C4 -/

/-- `initSeg a b`: the step trace `a` is an initial segment of `b`. -/
def initSeg (a b : List String) : Prop := ∃ rest, a ++ rest = b

/-- The failing PostgreSQL step named by the trace returned exactly the
reported error. -/
def pgStepFailed (db : PgDb) (schemaFilter : List String)
    (trace : List String) (e : GoErr) : Prop :=
  (trace = ["GetDatabaseInfo"] ∧ pgGetDatabaseInfo db = .error e) ∨
  (trace = ["GetDatabaseInfo", "GetTables"] ∧
    pgGetTables db schemaFilter = .error e) ∨
  (trace = ["GetDatabaseInfo", "GetTables", "GetViews"] ∧
    pgGetViews db schemaFilter = .error e) ∨
  (trace = ["GetDatabaseInfo", "GetTables", "GetViews", "GetRoutines"] ∧
    pgGetRoutines db schemaFilter = .error e) ∨
  (trace = ["GetDatabaseInfo", "GetTables", "GetViews", "GetRoutines",
      "GetSequences"] ∧
    pgGetSequences db schemaFilter = .error e) ∨
  (trace = ["GetDatabaseInfo", "GetTables", "GetViews", "GetRoutines",
      "GetSequences", "GetTriggers"] ∧
    pgGetTriggers db schemaFilter = .error e) ∨
  (trace = ["GetDatabaseInfo", "GetTables", "GetViews", "GetRoutines",
      "GetSequences", "GetTriggers", "GetSynonyms"] ∧
    (pgGetSynonyms db).2 = some e)

/-- The failing Oracle step named by the trace returned the error that
the orchestrator reported wrapped with that step's purpose. -/
def oraStepFailed (db : OraDb) (schemaFilter : List String)
    (trace : List String) (e : GoErr) : Prop :=
  (trace = ["GetDatabaseInfo"] ∧ ∃ e0, oraGetDatabaseInfo db = .error e0 ∧
    e = "failed to get database info: " ++ e0) ∨
  (trace = ["GetDatabaseInfo", "GetTables"] ∧
    ∃ e0, oraGetTables db schemaFilter = .error e0 ∧
      e = "failed to get tables: " ++ e0) ∨
  (trace = ["GetDatabaseInfo", "GetTables", "GetViews"] ∧
    ∃ e0, oraGetViews db schemaFilter = .error e0 ∧
      e = "failed to get views: " ++ e0) ∨
  (trace = ["GetDatabaseInfo", "GetTables", "GetViews", "GetRoutines"] ∧
    ∃ e0, oraGetRoutines db schemaFilter = .error e0 ∧
      e = "failed to get routines: " ++ e0) ∨
  (trace = ["GetDatabaseInfo", "GetTables", "GetViews", "GetRoutines",
      "GetSequences"] ∧
    ∃ e0, oraGetSequences db schemaFilter = .error e0 ∧
      e = "failed to get sequences: " ++ e0) ∨
  (trace = ["GetDatabaseInfo", "GetTables", "GetViews", "GetRoutines",
      "GetSequences", "GetTriggers"] ∧
    ∃ e0, oraGetTriggers db schemaFilter = .error e0 ∧
      e = "failed to get triggers: " ++ e0) ∨
  (trace = ["GetDatabaseInfo", "GetTables", "GetViews", "GetRoutines",
      "GetSequences", "GetTriggers", "GetSynonyms"] ∧
    ∃ e0, oraGetSynonyms db schemaFilter = .error e0 ∧
      e = "failed to get synonyms: " ++ e0)

/-- Claim C4: both orchestrators run their steps in exactly the fixed
order (every trace is an initial segment of that order, and a full run
ends with the index aggregation); a run that reports no error ran every
step and produced a schema; a run that reports an error produced no
schema (nil pointer), stopped at the step its trace ends with, and
reports that step's error (for Oracle, wrapped with the step's
purpose). -/
theorem extract_schema_order_and_fail_fast :
    (∀ (db : PgDb) (schemaFilter : List String) (now : Nat),
      initSeg (pgExtractSchemaT db schemaFilter now).2 pgStepOrder ∧
      ((pgExtractSchema db schemaFilter now).2 = none →
        (pgExtractSchemaT db schemaFilter now).2 = pgStepOrder ∧
        ∃ s, (pgExtractSchema db schemaFilter now).1 = some s) ∧
      (∀ e, (pgExtractSchema db schemaFilter now).2 = some e →
        (pgExtractSchema db schemaFilter now).1 = none ∧
        pgStepFailed db schemaFilter
          (pgExtractSchemaT db schemaFilter now).2 e)) ∧
    (∀ (db : OraDb) (schemaFilter : List String) (now : Nat),
      initSeg (oraExtractSchemaT db schemaFilter now).2 oraStepOrder ∧
      ((oraExtractSchema db schemaFilter now).2 = none →
        (oraExtractSchemaT db schemaFilter now).2 = oraStepOrder ∧
        ∃ s, (oraExtractSchema db schemaFilter now).1 = some s) ∧
      (∀ e, (oraExtractSchema db schemaFilter now).2 = some e →
        (oraExtractSchema db schemaFilter now).1 = none ∧
        oraStepFailed db schemaFilter
          (oraExtractSchemaT db schemaFilter now).2 e)) := by
  constructor
  · intro db schemaFilter now
    cases h1 : pgGetDatabaseInfo db with
    | error e =>
      have hT : pgExtractSchemaT db schemaFilter now =
          ((none, some e), ["GetDatabaseInfo"]) := by
        unfold pgExtractSchemaT; rw [h1]
      refine ⟨⟨["GetTables", "GetViews", "GetRoutines", "GetSequences",
        "GetTriggers", "GetSynonyms", "AggregateIndexes"], by rw [hT]; rfl⟩,
        ?_, ?_⟩
      · intro hnone
        unfold pgExtractSchema at hnone
        rw [hT] at hnone
        exact Option.noConfusion hnone
      · intro e' he'
        unfold pgExtractSchema at he'
        rw [hT] at he'
        obtain rfl : e = e' := Option.some.inj he'
        exact ⟨by unfold pgExtractSchema; rw [hT], Or.inl ⟨by rw [hT], h1⟩⟩
    | ok info =>
      obtain ⟨dbName, ver⟩ := info
      cases h2 : pgGetTables db schemaFilter with
      | error e =>
        have hT : pgExtractSchemaT db schemaFilter now =
            ((none, some e), ["GetDatabaseInfo", "GetTables"]) := by
          unfold pgExtractSchemaT; rw [h1, h2]
        refine ⟨⟨["GetViews", "GetRoutines", "GetSequences",
          "GetTriggers", "GetSynonyms", "AggregateIndexes"], by rw [hT]; rfl⟩,
          ?_, ?_⟩
        · intro hnone
          unfold pgExtractSchema at hnone
          rw [hT] at hnone
          exact Option.noConfusion hnone
        · intro e' he'
          unfold pgExtractSchema at he'
          rw [hT] at he'
          obtain rfl : e = e' := Option.some.inj he'
          exact ⟨by unfold pgExtractSchema; rw [hT],
            Or.inr (Or.inl ⟨by rw [hT], h2⟩)⟩
      | ok tables =>
        cases h3 : pgGetViews db schemaFilter with
        | error e =>
          have hT : pgExtractSchemaT db schemaFilter now =
              ((none, some e),
               ["GetDatabaseInfo", "GetTables", "GetViews"]) := by
            unfold pgExtractSchemaT; rw [h1, h2, h3]
          refine ⟨⟨["GetRoutines", "GetSequences", "GetTriggers",
            "GetSynonyms", "AggregateIndexes"], by rw [hT]; rfl⟩, ?_, ?_⟩
          · intro hnone
            unfold pgExtractSchema at hnone
            rw [hT] at hnone
            exact Option.noConfusion hnone
          · intro e' he'
            unfold pgExtractSchema at he'
            rw [hT] at he'
            obtain rfl : e = e' := Option.some.inj he'
            exact ⟨by unfold pgExtractSchema; rw [hT],
              Or.inr (Or.inr (Or.inl ⟨by rw [hT], h3⟩))⟩
        | ok views =>
          cases h4 : pgGetRoutines db schemaFilter with
          | error e =>
            have hT : pgExtractSchemaT db schemaFilter now =
                ((none, some e),
                 ["GetDatabaseInfo", "GetTables", "GetViews",
                  "GetRoutines"]) := by
              unfold pgExtractSchemaT; rw [h1, h2, h3, h4]
            refine ⟨⟨["GetSequences", "GetTriggers", "GetSynonyms",
              "AggregateIndexes"], by rw [hT]; rfl⟩, ?_, ?_⟩
            · intro hnone
              unfold pgExtractSchema at hnone
              rw [hT] at hnone
              exact Option.noConfusion hnone
            · intro e' he'
              unfold pgExtractSchema at he'
              rw [hT] at he'
              obtain rfl : e = e' := Option.some.inj he'
              exact ⟨by unfold pgExtractSchema; rw [hT],
                Or.inr (Or.inr (Or.inr (Or.inl ⟨by rw [hT], h4⟩)))⟩
          | ok routines =>
            cases h5 : pgGetSequences db schemaFilter with
            | error e =>
              have hT : pgExtractSchemaT db schemaFilter now =
                  ((none, some e),
                   ["GetDatabaseInfo", "GetTables", "GetViews",
                    "GetRoutines", "GetSequences"]) := by
                unfold pgExtractSchemaT; rw [h1, h2, h3, h4, h5]
              refine ⟨⟨["GetTriggers", "GetSynonyms", "AggregateIndexes"],
                by rw [hT]; rfl⟩, ?_, ?_⟩
              · intro hnone
                unfold pgExtractSchema at hnone
                rw [hT] at hnone
                exact Option.noConfusion hnone
              · intro e' he'
                unfold pgExtractSchema at he'
                rw [hT] at he'
                obtain rfl : e = e' := Option.some.inj he'
                exact ⟨by unfold pgExtractSchema; rw [hT],
                  Or.inr (Or.inr (Or.inr (Or.inr (Or.inl
                    ⟨by rw [hT], h5⟩))))⟩
            | ok seqs =>
              cases h6 : pgGetTriggers db schemaFilter with
              | error e =>
                have hT : pgExtractSchemaT db schemaFilter now =
                    ((none, some e),
                     ["GetDatabaseInfo", "GetTables", "GetViews",
                      "GetRoutines", "GetSequences", "GetTriggers"]) := by
                  unfold pgExtractSchemaT; rw [h1, h2, h3, h4, h5, h6]
                refine ⟨⟨["GetSynonyms", "AggregateIndexes"],
                  by rw [hT]; rfl⟩, ?_, ?_⟩
                · intro hnone
                  unfold pgExtractSchema at hnone
                  rw [hT] at hnone
                  exact Option.noConfusion hnone
                · intro e' he'
                  unfold pgExtractSchema at he'
                  rw [hT] at he'
                  obtain rfl : e = e' := Option.some.inj he'
                  exact ⟨by unfold pgExtractSchema; rw [hT],
                    Or.inr (Or.inr (Or.inr (Or.inr (Or.inr (Or.inl
                      ⟨by rw [hT], h6⟩)))))⟩
              | ok trgs =>
                have hT : pgExtractSchemaT db schemaFilter now =
                    ((some { DatabaseName := dbName, Version := ver,
                             DatabaseType := "PostgreSQL",
                             ExtractedAt := now, Tables := tables,
                             Views := views, Routines := routines,
                             Sequences := seqs, Triggers := trgs,
                             Synonyms := [],
                             Indexes :=
                               (tables.map Table.Indexes).flatten },
                      none),
                     pgStepOrder) := by
                  unfold pgExtractSchemaT; rw [h1, h2, h3, h4, h5, h6]; rfl
                refine ⟨⟨[], by rw [hT]; rfl⟩, ?_, ?_⟩
                · intro _
                  exact ⟨by rw [hT], ⟨_, by unfold pgExtractSchema; rw [hT]⟩⟩
                · intro e' he'
                  unfold pgExtractSchema at he'
                  rw [hT] at he'
                  exact Option.noConfusion he'
  · intro db schemaFilter now
    cases h1 : oraGetDatabaseInfo db with
    | error e =>
      have hT : oraExtractSchemaT db schemaFilter now =
          ((none, some ("failed to get database info: " ++ e)),
           ["GetDatabaseInfo"]) := by
        unfold oraExtractSchemaT; rw [h1]
      refine ⟨⟨["GetTables", "GetViews", "GetRoutines", "GetSequences",
        "GetTriggers", "GetSynonyms", "AggregateIndexes"], by rw [hT]; rfl⟩,
        ?_, ?_⟩
      · intro hnone
        unfold oraExtractSchema at hnone
        rw [hT] at hnone
        exact Option.noConfusion hnone
      · intro e' he'
        unfold oraExtractSchema at he'
        rw [hT] at he'
        obtain rfl : _ = e' := Option.some.inj he'
        exact ⟨by unfold oraExtractSchema; rw [hT],
          Or.inl ⟨by rw [hT], ⟨e, h1, rfl⟩⟩⟩
    | ok info =>
      obtain ⟨dbName, ver⟩ := info
      cases h2 : oraGetTables db schemaFilter with
      | error e =>
        have hT : oraExtractSchemaT db schemaFilter now =
            ((none, some ("failed to get tables: " ++ e)),
             ["GetDatabaseInfo", "GetTables"]) := by
          unfold oraExtractSchemaT; rw [h1, h2]
        refine ⟨⟨["GetViews", "GetRoutines", "GetSequences",
          "GetTriggers", "GetSynonyms", "AggregateIndexes"], by rw [hT]; rfl⟩,
          ?_, ?_⟩
        · intro hnone
          unfold oraExtractSchema at hnone
          rw [hT] at hnone
          exact Option.noConfusion hnone
        · intro e' he'
          unfold oraExtractSchema at he'
          rw [hT] at he'
          obtain rfl : _ = e' := Option.some.inj he'
          exact ⟨by unfold oraExtractSchema; rw [hT],
            Or.inr (Or.inl ⟨by rw [hT], ⟨e, h2, rfl⟩⟩)⟩
      | ok tables =>
        cases h3 : oraGetViews db schemaFilter with
        | error e =>
          have hT : oraExtractSchemaT db schemaFilter now =
              ((none, some ("failed to get views: " ++ e)),
               ["GetDatabaseInfo", "GetTables", "GetViews"]) := by
            unfold oraExtractSchemaT; rw [h1, h2, h3]
          refine ⟨⟨["GetRoutines", "GetSequences", "GetTriggers",
            "GetSynonyms", "AggregateIndexes"], by rw [hT]; rfl⟩, ?_, ?_⟩
          · intro hnone
            unfold oraExtractSchema at hnone
            rw [hT] at hnone
            exact Option.noConfusion hnone
          · intro e' he'
            unfold oraExtractSchema at he'
            rw [hT] at he'
            obtain rfl : _ = e' := Option.some.inj he'
            exact ⟨by unfold oraExtractSchema; rw [hT],
              Or.inr (Or.inr (Or.inl ⟨by rw [hT], ⟨e, h3, rfl⟩⟩))⟩
        | ok views =>
          cases h4 : oraGetRoutines db schemaFilter with
          | error e =>
            have hT : oraExtractSchemaT db schemaFilter now =
                ((none, some ("failed to get routines: " ++ e)),
                 ["GetDatabaseInfo", "GetTables", "GetViews",
                  "GetRoutines"]) := by
              unfold oraExtractSchemaT; rw [h1, h2, h3, h4]
            refine ⟨⟨["GetSequences", "GetTriggers", "GetSynonyms",
              "AggregateIndexes"], by rw [hT]; rfl⟩, ?_, ?_⟩
            · intro hnone
              unfold oraExtractSchema at hnone
              rw [hT] at hnone
              exact Option.noConfusion hnone
            · intro e' he'
              unfold oraExtractSchema at he'
              rw [hT] at he'
              obtain rfl : _ = e' := Option.some.inj he'
              exact ⟨by unfold oraExtractSchema; rw [hT],
                Or.inr (Or.inr (Or.inr (Or.inl
                  ⟨by rw [hT], ⟨e, h4, rfl⟩⟩)))⟩
          | ok routines =>
            cases h5 : oraGetSequences db schemaFilter with
            | error e =>
              have hT : oraExtractSchemaT db schemaFilter now =
                  ((none, some ("failed to get sequences: " ++ e)),
                   ["GetDatabaseInfo", "GetTables", "GetViews",
                    "GetRoutines", "GetSequences"]) := by
                unfold oraExtractSchemaT; rw [h1, h2, h3, h4, h5]
              refine ⟨⟨["GetTriggers", "GetSynonyms", "AggregateIndexes"],
                by rw [hT]; rfl⟩, ?_, ?_⟩
              · intro hnone
                unfold oraExtractSchema at hnone
                rw [hT] at hnone
                exact Option.noConfusion hnone
              · intro e' he'
                unfold oraExtractSchema at he'
                rw [hT] at he'
                obtain rfl : _ = e' := Option.some.inj he'
                exact ⟨by unfold oraExtractSchema; rw [hT],
                  Or.inr (Or.inr (Or.inr (Or.inr (Or.inl
                    ⟨by rw [hT], ⟨e, h5, rfl⟩⟩))))⟩
            | ok seqs =>
              cases h6 : oraGetTriggers db schemaFilter with
              | error e =>
                have hT : oraExtractSchemaT db schemaFilter now =
                    ((none, some ("failed to get triggers: " ++ e)),
                     ["GetDatabaseInfo", "GetTables", "GetViews",
                      "GetRoutines", "GetSequences", "GetTriggers"]) := by
                  unfold oraExtractSchemaT; rw [h1, h2, h3, h4, h5, h6]
                refine ⟨⟨["GetSynonyms", "AggregateIndexes"],
                  by rw [hT]; rfl⟩, ?_, ?_⟩
                · intro hnone
                  unfold oraExtractSchema at hnone
                  rw [hT] at hnone
                  exact Option.noConfusion hnone
                · intro e' he'
                  unfold oraExtractSchema at he'
                  rw [hT] at he'
                  obtain rfl : _ = e' := Option.some.inj he'
                  exact ⟨by unfold oraExtractSchema; rw [hT],
                    Or.inr (Or.inr (Or.inr (Or.inr (Or.inr (Or.inl
                      ⟨by rw [hT], ⟨e, h6, rfl⟩⟩)))))⟩
              | ok trgs =>
                cases h7 : oraGetSynonyms db schemaFilter with
                | error e =>
                  have hT : oraExtractSchemaT db schemaFilter now =
                      ((none, some ("failed to get synonyms: " ++ e)),
                       ["GetDatabaseInfo", "GetTables", "GetViews",
                        "GetRoutines", "GetSequences", "GetTriggers",
                        "GetSynonyms"]) := by
                    unfold oraExtractSchemaT; rw [h1, h2, h3, h4, h5, h6, h7]
                  refine ⟨⟨["AggregateIndexes"], by rw [hT]; rfl⟩, ?_, ?_⟩
                  · intro hnone
                    unfold oraExtractSchema at hnone
                    rw [hT] at hnone
                    exact Option.noConfusion hnone
                  · intro e' he'
                    unfold oraExtractSchema at he'
                    rw [hT] at he'
                    obtain rfl : _ = e' := Option.some.inj he'
                    exact ⟨by unfold oraExtractSchema; rw [hT],
                      Or.inr (Or.inr (Or.inr (Or.inr (Or.inr (Or.inr
                        ⟨by rw [hT], ⟨e, h7, rfl⟩⟩)))))⟩
                | ok syns =>
                  have hT : oraExtractSchemaT db schemaFilter now =
                      ((some { DatabaseName := dbName, Version := ver,
                               DatabaseType := "Oracle",
                               ExtractedAt := now, Tables := tables,
                               Views := views, Routines := routines,
                               Sequences := seqs, Triggers := trgs,
                               Synonyms := syns,
                               Indexes :=
                                 (tables.map Table.Indexes).flatten },
                        none),
                       oraStepOrder) := by
                    unfold oraExtractSchemaT; rw [h1, h2, h3, h4, h5, h6, h7]
                  refine ⟨⟨[], by rw [hT]; rfl⟩, ?_, ?_⟩
                  · intro _
                    exact ⟨by rw [hT],
                      ⟨_, by unfold oraExtractSchema; rw [hT]⟩⟩
                  · intro e' he'
                    unfold oraExtractSchema at he'
                    rw [hT] at he'
                    exact Option.noConfusion he'

/-- A PostgreSQL catalog whose views query fails while everything
before it succeeds. -/
def pgDbC4 : PgDb where
  databaseInfo := .ok ("d", "v")
  tablesCatalog := .ok []
  columnsCatalog := fun _ _ => .ok []
  fkTargetCatalog := fun _ _ _ => .ok (none, none)
  indexesCatalog := fun _ _ => .ok []
  indexColsCatalog := fun _ _ => .ok []
  viewsCatalog := .error "views query failed"
  routinesCatalog := .ok []
  sequencesCatalog := .ok []
  triggersCatalog := .ok []

/-- Concrete instance of the C4 theorem: on `pgDbC4` the run aborts at
GetViews with a nil schema and that step's error. -/
theorem extract_schema_order_and_fail_fast_witness :
    (pgExtractSchema pgDbC4 ["public"] 0).1 = none ∧
    pgStepFailed pgDbC4 ["public"] (pgExtractSchemaT pgDbC4 ["public"] 0).2
      "views query failed" :=
  (extract_schema_order_and_fail_fast.1 pgDbC4 ["public"] 0).2.2
    "views query failed" rfl
